import Mathlib

/-!
# WinService (Poco 1.4.1p1, Util/src/WinService.cpp)

A shallow embedding of `Poco::Util::WinService` and proofs about it.

* The operating system is an explicit parameter: a record `OS σ` of the Win32 entry points the
  class calls, each a function on an arbitrary OS state `σ`. A theorem quantified over `σ` and
  `os : OS σ` holds for every (deterministic, sequential) behaviour of the OS.
* Every OS call the code makes is appended, with its arguments and its result, to a log
  (`World.log`), so that what the code asked of the OS, and in which order, can be stated.
* Handles and pointers are natural numbers, `0` being `NULL`.
* The embedding follows the `#else` branches of `POCO_WIN32_UTF8` (the narrow-character build);
  `std::string::c_str()` and `std::string(const char*)` are `c_str`: the text up to the first
  NUL character.
* A `DWORD` or `SIZE_T` value is a natural number and an `int` value an integer; the
  conversions of `config()` between them (`int size = bytesNeeded`, `size` passed as the
  `DWORD` buffer size and as the `SIZE_T` allocation size) are `DWORD_to_int`, `int_to_DWORD`
  and `int_to_SIZE_T`, for a 32-bit `int` and a `SIZE_T` of 32 or 64 bits (`OS.win64`).
-/

namespace WinSvc

/-! ## Constants of the Windows SDK used by the source -/

/-- Modelled from the spec: the OS start-type constant boot-start (`SERVICE_BOOT_START` of the
Windows SDK header winnt.h, which is not part of the repository). -/
def SERVICE_BOOT_START : Nat := 0
/-- Modelled from the spec: the OS start-type constant system-start (`SERVICE_SYSTEM_START`,
Windows SDK, winnt.h). -/
def SERVICE_SYSTEM_START : Nat := 1
/-- Modelled from the spec: the OS start-type constant auto-start (`SERVICE_AUTO_START`,
Windows SDK, winnt.h). -/
def SERVICE_AUTO_START : Nat := 2
/-- Modelled from the spec: the OS start-type constant demand-start (`SERVICE_DEMAND_START`,
Windows SDK, winnt.h). -/
def SERVICE_DEMAND_START : Nat := 3
/-- Modelled from the spec: the OS start-type constant disabled (`SERVICE_DISABLED`,
Windows SDK, winnt.h). -/
def SERVICE_DISABLED : Nat := 4
/-- Modelled from the spec: the "no change" value of `ChangeServiceConfig` (`SERVICE_NO_CHANGE`,
Windows SDK, winsvc.h). -/
def SERVICE_NO_CHANGE : Nat := 0xffffffff
/-- Modelled from the spec: the own-process service type (`SERVICE_WIN32_OWN_PROCESS`,
Windows SDK, winnt.h). -/
def SERVICE_WIN32_OWN_PROCESS : Nat := 0x10
/-- Modelled from the spec: normal error severity (`SERVICE_ERROR_NORMAL`, Windows SDK,
winnt.h). -/
def SERVICE_ERROR_NORMAL : Nat := 1
/-- Modelled from the spec: full access to a service (`SERVICE_ALL_ACCESS`, Windows SDK,
winsvc.h). -/
def SERVICE_ALL_ACCESS : Nat := 0xF01FF
/-- Modelled from the spec: full access to the manager (`SC_MANAGER_ALL_ACCESS`, Windows SDK,
winsvc.h). -/
def SC_MANAGER_ALL_ACCESS : Nat := 0xF003F
/-- Modelled from the spec: the state "start pending" (`SERVICE_START_PENDING`, Windows SDK,
winsvc.h). -/
def SERVICE_START_PENDING : Nat := 2
/-- Modelled from the spec: the state Running (`SERVICE_RUNNING`, Windows SDK, winsvc.h). -/
def SERVICE_RUNNING : Nat := 4
/-- Modelled from the spec: the state Stopped (`SERVICE_STOPPED`, Windows SDK, winsvc.h); used
only by the simulated OS. -/
def SERVICE_STOPPED : Nat := 1
/-- Modelled from the spec: the stop control signal (`SERVICE_CONTROL_STOP`, Windows SDK,
winsvc.h). -/
def SERVICE_CONTROL_STOP : Nat := 1
/-- Modelled from the spec: the error "buffer too small" (`ERROR_INSUFFICIENT_BUFFER`, Windows
SDK, winerror.h). -/
def ERROR_INSUFFICIENT_BUFFER : Nat := 122
/-- Modelled from the spec: an error other than "buffer too small" (`ERROR_INVALID_HANDLE`,
Windows SDK, winerror.h); used only by the simulated OS. -/
def ERROR_INVALID_HANDLE : Nat := 6
/-- Modelled from the spec: an error other than "buffer too small" (`ERROR_INVALID_ADDRESS`,
Windows SDK, winerror.h); used only by the simulated OS. -/
def ERROR_INVALID_ADDRESS : Nat := 487
/-- Modelled from the spec: the allocation flags of `LocalAlloc` (`LPTR`, fixed and
zero-initialised memory; Windows SDK, winbase.h). -/
def LPTR : Nat := 0x40

/-- The source's `WinService::STARTUP_TIMEOUT` (line 55). -/
def STARTUP_TIMEOUT : Nat := 30000

/-! ## Data -/

/-- Modelled from the spec: `WinService::Startup`, the enumeration of the header WinService.h
(not under src/): AutomaticStart, ManualStart, Disabled. `invalid` stands for a value of the
enumeration type that is none of the three enumerators (a C++ enum can hold one); it is what the
`default:` branch of `setStartup` is for. -/
inductive Startup
  | SVC_AUTO_START
  | SVC_MANUAL_START
  | SVC_DISABLED
  | invalid (raw : Nat)
  deriving DecidableEq, Repr

/-- The part of `SERVICE_STATUS` the source reads: `dwCurrentState`. -/
structure SERVICE_STATUS where
  dwCurrentState : Nat
  deriving DecidableEq, Repr

/-- The part of `QUERY_SERVICE_CONFIG` the source reads. -/
structure QUERY_SERVICE_CONFIG where
  dwStartType : Nat
  lpBinaryPathName : String
  lpDisplayName : String
  deriving DecidableEq, Repr

/-- What `QueryServiceConfig` answers: success with the record it wrote into the buffer, or
failure with the value of `GetLastError()` and of the out-parameter `bytesNeeded`. -/
inductive QueryConfigResult
  | success (cfg : QUERY_SERVICE_CONFIG)
  | failure (lastError : Nat) (bytesNeeded : Nat)
  deriving DecidableEq, Repr

/-- The exceptions the source throws: class, message and, where the source passes one, the
argument (the service name). -/
inductive Exn
  | SystemException (msg : String) (arg : Option String)
  | NotFoundException (msg : String) (arg : Option String)
  | OutOfMemoryException (msg : String)
  deriving DecidableEq, Repr

/-- How a call ends: it returns a value, it throws, or (only for the unbounded retry loop of
`config`, which is run with fuel) the fuel ran out while the loop was still going. -/
inductive Outcome (α : Type)
  | ret (a : α)
  | raise (e : Exn)
  | running
  deriving DecidableEq, Repr

/-- One call into the OS, with its arguments and its result. -/
inductive Call
  | OpenSCManager (access : Nat) (result : Nat)
  | OpenService (scm : Nat) (name : String) (access : Nat) (result : Nat)
  | CreateService (scm : Nat) (name displayName : String)
      (access serviceType startType errorControl : Nat) (path : String) (result : Nat)
  | CloseServiceHandle (h : Nat)
  | DeleteService (h : Nat) (result : Bool)
  | QueryServiceStatus (h : Nat) (result : Option SERVICE_STATUS)
  | StartService (h : Nat) (result : Bool)
  | ControlService (h : Nat) (control : Nat) (result : Bool)
  | ChangeServiceConfig (h : Nat) (serviceType startType errorControl : Nat) (result : Bool)
  | QueryServiceConfig (h : Nat) (buffer size : Nat) (result : QueryConfigResult)
  | LocalAlloc (flags size : Nat) (result : Nat)
  | LocalFree (p : Nat)
  | sleep (msecs : Nat)
  | poco_debugger
  deriving DecidableEq, Repr

/-- The OS: the Win32 entry points the source calls, as functions on an OS state `σ`, and
whether the platform is 64-bit Windows (a `SIZE_T` of 64 bits) or 32-bit Windows (32 bits). -/
structure OS (σ : Type) where
  win64 : Bool
  OpenSCManager : Nat → σ → Nat × σ
  OpenService : Nat → String → Nat → σ → Nat × σ
  CreateService : Nat → String → String → Nat → Nat → Nat → Nat → String → σ → Nat × σ
  CloseServiceHandle : Nat → σ → σ
  DeleteService : Nat → σ → Bool × σ
  QueryServiceStatus : Nat → σ → Option SERVICE_STATUS × σ
  StartService : Nat → σ → Bool × σ
  ControlService : Nat → Nat → σ → Bool × σ
  ChangeServiceConfig : Nat → Nat → Nat → Nat → σ → Bool × σ
  QueryServiceConfig : Nat → Nat → Nat → σ → QueryConfigResult × σ
  LocalAlloc : Nat → Nat → σ → Nat × σ
  LocalFree : Nat → σ → σ
  sleep : Nat → σ → σ

/-- The world outside the object: the state of the OS and the log of the calls made so far
(oldest first). -/
structure World (σ : Type) where
  os : σ
  log : List Call

/-- The data members of `WinService`: `_name`, `_scmHandle`, `_svcHandle`. -/
structure WinService where
  _name : String
  _scmHandle : Nat
  _svcHandle : Nat
  deriving DecidableEq, Repr

/-- The result of a member function: how it ended, the object afterwards (`_svcHandle` is
mutable, also in the const members) and the world afterwards. -/
structure Res (σ α : Type) where
  out : Outcome α
  self : WinService
  world : World σ

/-- The `int` a `DWORD` becomes in `size = bytesNeeded` (line 306): the value modulo 2^32
(4294967296), read as a 32-bit two's-complement integer, so a value from 2^31 (2147483648) on
becomes negative. -/
def DWORD_to_int (n : Nat) : Int :=
  if n % 4294967296 < 2147483648 then Int.ofNat (n % 4294967296)
  else Int.ofNat (n % 4294967296) - 4294967296

/-- The `DWORD` an `int` becomes as the buffer size given to `QueryServiceConfig`: the value
modulo 2^32. -/
def int_to_DWORD (i : Int) : Nat := (i % 4294967296).toNat

/-- The `SIZE_T` an `int` becomes as the size given to `LocalAlloc`: the value modulo 2^64
(18446744073709551616) on 64-bit Windows, where a negative `int` is sign-extended, and modulo
2^32 on 32-bit Windows. -/
def int_to_SIZE_T (win64 : Bool) (i : Int) : Nat :=
  if win64 then (i % 18446744073709551616).toNat else (i % 4294967296).toNat

/-- The string a `const char*` denotes: the characters before the first NUL. It is
`std::string::c_str()` as the OS reads it and `std::string(const char*)`. -/
def c_str (s : String) : String :=
  String.mk (s.data.takeWhile (fun c => c != Char.ofNat 0))

/-! ## The OS calls, logged -/

namespace Sys

variable {σ : Type}

/-- The call `OpenSCManager(NULL, NULL, access)`. -/
def OpenSCManager (os : OS σ) (access : Nat) (w : World σ) : Nat × World σ :=
  let r := os.OpenSCManager access w.os
  (r.1, ⟨r.2, w.log ++ [Call.OpenSCManager access r.1]⟩)

/-- The call `OpenService(scm, name, access)`. -/
def OpenService (os : OS σ) (scm : Nat) (name : String) (access : Nat) (w : World σ) :
    Nat × World σ :=
  let r := os.OpenService scm name access w.os
  (r.1, ⟨r.2, w.log ++ [Call.OpenService scm name access r.1]⟩)

/-- The call `CreateService(scm, name, displayName, access, serviceType, startType,
errorControl, path, NULL, NULL, NULL, NULL, NULL)`. -/
def CreateService (os : OS σ) (scm : Nat) (name displayName : String)
    (access serviceType startType errorControl : Nat) (path : String) (w : World σ) :
    Nat × World σ :=
  let r := os.CreateService scm name displayName access serviceType startType errorControl path w.os
  (r.1, ⟨r.2, w.log ++
    [Call.CreateService scm name displayName access serviceType startType errorControl path r.1]⟩)

/-- The call `CloseServiceHandle(h)` (the source ignores its result). -/
def CloseServiceHandle (os : OS σ) (h : Nat) (w : World σ) : World σ :=
  ⟨os.CloseServiceHandle h w.os, w.log ++ [Call.CloseServiceHandle h]⟩

/-- The call `DeleteService(h)`. -/
def DeleteService (os : OS σ) (h : Nat) (w : World σ) : Bool × World σ :=
  let r := os.DeleteService h w.os
  (r.1, ⟨r.2, w.log ++ [Call.DeleteService h r.1]⟩)

/-- The call `QueryServiceStatus(h, &status)`: `none` when it fails. -/
def QueryServiceStatus (os : OS σ) (h : Nat) (w : World σ) : Option SERVICE_STATUS × World σ :=
  let r := os.QueryServiceStatus h w.os
  (r.1, ⟨r.2, w.log ++ [Call.QueryServiceStatus h r.1]⟩)

/-- The call `StartService(h, 0, NULL)`. -/
def StartService (os : OS σ) (h : Nat) (w : World σ) : Bool × World σ :=
  let r := os.StartService h w.os
  (r.1, ⟨r.2, w.log ++ [Call.StartService h r.1]⟩)

/-- The call `ControlService(h, control, &status)`. -/
def ControlService (os : OS σ) (h control : Nat) (w : World σ) : Bool × World σ :=
  let r := os.ControlService h control w.os
  (r.1, ⟨r.2, w.log ++ [Call.ControlService h control r.1]⟩)

/-- The call `ChangeServiceConfig(h, serviceType, startType, errorControl, NULL, ..., NULL)`. -/
def ChangeServiceConfig (os : OS σ) (h serviceType startType errorControl : Nat) (w : World σ) :
    Bool × World σ :=
  let r := os.ChangeServiceConfig h serviceType startType errorControl w.os
  (r.1, ⟨r.2, w.log ++ [Call.ChangeServiceConfig h serviceType startType errorControl r.1]⟩)

/-- The call `QueryServiceConfig(h, buffer, size, &bytesNeeded)` followed, when it fails, by
`GetLastError()`. -/
def QueryServiceConfig (os : OS σ) (h buffer size : Nat) (w : World σ) :
    QueryConfigResult × World σ :=
  let r := os.QueryServiceConfig h buffer size w.os
  (r.1, ⟨r.2, w.log ++ [Call.QueryServiceConfig h buffer size r.1]⟩)

/-- The call `LocalAlloc(flags, size)`: the pointer, `0` when the allocation fails. -/
def LocalAlloc (os : OS σ) (flags size : Nat) (w : World σ) : Nat × World σ :=
  let r := os.LocalAlloc flags size w.os
  (r.1, ⟨r.2, w.log ++ [Call.LocalAlloc flags size r.1]⟩)

/-- The call `LocalFree(p)`. -/
def LocalFree (os : OS σ) (p : Nat) (w : World σ) : World σ :=
  ⟨os.LocalFree p w.os, w.log ++ [Call.LocalFree p]⟩

/-- The call `Thread::sleep(msecs)`. -/
def sleep (os : OS σ) (msecs : Nat) (w : World σ) : World σ :=
  ⟨os.sleep msecs w.os, w.log ++ [Call.sleep msecs]⟩

/-- Modelled from the spec: `poco_debugger()`, a macro of Poco/Bugcheck.h (not under src/), the
"debug-only trap": it breaks into a debugger when one is attached to a debug build and does
nothing else; execution goes on after it. It is logged and changes nothing. -/
def poco_debugger (w : World σ) : World σ :=
  ⟨w.os, w.log ++ [Call.poco_debugger]⟩

end Sys

/-! ## The member functions -/

variable {σ : Type}

/-- Sequencing: go on with `k` when `r` returned, pass a throw (or running out of fuel) on. -/
def Res.bind {α β : Type} (r : Res σ α) (k : α → WinService → World σ → Res σ β) : Res σ β :=
  match r.out with
  | .ret a => k a r.self r.world
  | .raise e => ⟨.raise e, r.self, r.world⟩
  | .running => ⟨.running, r.self, r.world⟩

namespace WinService

/-- The constructor `WinService::WinService(name)` (lines 58-64). When it throws there is no
object; `self` then only shows the members as far as they were set. -/
def ctor (os : OS σ) (name : String) (w : World σ) : Res σ Unit :=
  let r := Sys.OpenSCManager os SC_MANAGER_ALL_ACCESS w
  if r.1 = 0 then
    ⟨.raise (.SystemException "cannot open Service Control Manager" none), ⟨name, r.1, 0⟩, r.2⟩
  else ⟨.ret (), ⟨name, r.1, 0⟩, r.2⟩

/-- The member `close()` (lines 279-285). -/
def close (os : OS σ) (self : WinService) (w : World σ) : World σ :=
  if self._svcHandle ≠ 0 then Sys.CloseServiceHandle os self._svcHandle w else w

/-- The destructor (lines 67-71): the world after it. -/
def dtor (os : OS σ) (self : WinService) (w : World σ) : World σ :=
  Sys.CloseServiceHandle os self._scmHandle (close os self w)

/-- The member `name()` (lines 74-77). -/
def name (self : WinService) : String := self._name

/-- The member `tryOpen()` (lines 266-276). -/
def tryOpen (os : OS σ) (self : WinService) (w : World σ) : Bool × WinService × World σ :=
  let r := Sys.OpenService os self._scmHandle (c_str self._name) SERVICE_ALL_ACCESS w
  (r.1 != 0, { self with _svcHandle := r.1 }, r.2)

/-- The member `open()` (lines 259-263). -/
def open_ (os : OS σ) (self : WinService) (w : World σ) : Res σ Unit :=
  let r := tryOpen os self w
  if !r.1 then ⟨.raise (.NotFoundException "service does not exist" (some self._name)), r.2.1, r.2.2⟩
  else ⟨.ret (), r.2.1, r.2.2⟩

/-- The loop of `config()` (lines 298-310), with fuel: one unit per query; `size` is the `int`
of line 291. It gives how the `try` block ended (with the record `QueryServiceConfig` wrote,
when it returned), the value of `pSvcConfig` then, and the world. -/
def configLoop (os : OS σ) (self : WinService) :
    Nat → Nat → Int → World σ → Outcome QUERY_SERVICE_CONFIG × Nat × World σ
  | 0, pSvcConfig, _, w => (.running, pSvcConfig, w)
  | fuel + 1, pSvcConfig, size, w =>
    let q := Sys.QueryServiceConfig os self._svcHandle pSvcConfig (int_to_DWORD size) w
    match q.1 with
    | .success cfg => (.ret cfg, pSvcConfig, q.2)
    | .failure lastError bytesNeeded =>
      if lastError = ERROR_INSUFFICIENT_BUFFER then
        let w1 := Sys.LocalFree os pSvcConfig q.2
        let size := DWORD_to_int bytesNeeded
        let a := Sys.LocalAlloc os LPTR (int_to_SIZE_T os.win64 size) w1
        configLoop os self fuel a.1 size a.2
      else
        (.raise (.SystemException "cannot query service configuration" (some self._name)),
          pSvcConfig, q.2)

/-- The member `config()` (lines 288-318): the buffer it returns and the record in it. -/
def config (os : OS σ) (fuel : Nat) (self : WinService) (w : World σ) :
    Res σ (Nat × QUERY_SERVICE_CONFIG) :=
  (open_ os self w).bind fun _ self w =>
    let size : Int := 4096
    let a := Sys.LocalAlloc os LPTR (int_to_SIZE_T os.win64 size) w
    if a.1 = 0 then
      ⟨.raise (.OutOfMemoryException "cannot allocate service config buffer"), self, a.2⟩
    else
      let l := configLoop os self fuel a.1 size a.2
      match l.1 with
      | .ret cfg => ⟨.ret (l.2.1, cfg), self, l.2.2⟩
      | .raise e => ⟨.raise e, self, Sys.LocalFree os l.2.1 l.2.2⟩
      | .running => ⟨.running, self, l.2.2⟩

/-- The member `displayName()` (lines 80-92). -/
def displayName (os : OS σ) (fuel : Nat) (self : WinService) (w : World σ) : Res σ String :=
  (config os fuel self w).bind fun pSvcConfig self w =>
    let dispName := c_str pSvcConfig.2.lpDisplayName
    ⟨.ret dispName, self, Sys.LocalFree os pSvcConfig.1 w⟩

/-- The member `path()` (lines 95-107). -/
def path (os : OS σ) (fuel : Nat) (self : WinService) (w : World σ) : Res σ String :=
  (config os fuel self w).bind fun pSvcConfig self w =>
    let path := c_str pSvcConfig.2.lpBinaryPathName
    ⟨.ret path, self, Sys.LocalFree os pSvcConfig.1 w⟩

/-- The member `registerService(path, displayName)` (lines 110-144). -/
def registerService (os : OS σ) (path displayName : String) (self : WinService) (w : World σ) :
    Res σ Unit :=
  let w1 := close os self w
  let r := Sys.CreateService os self._scmHandle (c_str self._name) (c_str displayName)
    SERVICE_ALL_ACCESS SERVICE_WIN32_OWN_PROCESS SERVICE_DEMAND_START SERVICE_ERROR_NORMAL
    (c_str path) w1
  let self1 := { self with _svcHandle := r.1 }
  if r.1 = 0 then
    ⟨.raise (.SystemException "cannot register service" (some self._name)), self1, r.2⟩
  else ⟨.ret (), self1, r.2⟩

/-- The member `registerService(path)` (lines 147-150). -/
def registerService1 (os : OS σ) (path : String) (self : WinService) (w : World σ) :
    Res σ Unit :=
  registerService os path self._name self w

/-- The member `unregisterService()` (lines 153-158). -/
def unregisterService (os : OS σ) (self : WinService) (w : World σ) : Res σ Unit :=
  (open_ os self w).bind fun _ self w =>
    let r := Sys.DeleteService os self._svcHandle w
    if !r.1 then ⟨.raise (.SystemException "cannot unregister service" (some self._name)), self, r.2⟩
    else ⟨.ret (), self, r.2⟩

/-- The member `isRegistered()` (lines 161-164). -/
def isRegistered (os : OS σ) (self : WinService) (w : World σ) : Res σ Bool :=
  let r := tryOpen os self w
  ⟨.ret r.1, r.2.1, r.2.2⟩

/-- The member `isRunning()` (lines 167-174). -/
def isRunning (os : OS σ) (self : WinService) (w : World σ) : Res σ Bool :=
  (open_ os self w).bind fun _ self w =>
    let r := Sys.QueryServiceStatus os self._svcHandle w
    match r.1 with
    | none => ⟨.raise (.SystemException "cannot query service status" (some self._name)), self, r.2⟩
    | some ss => ⟨.ret (ss.dwCurrentState == SERVICE_RUNNING), self, r.2⟩

/-- The `while` loop of `start()` (lines 185-191): the world after it. -/
def startLoop (os : OS σ) (self : WinService) (msecs : Nat) (w : World σ) : World σ :=
  if msecs < STARTUP_TIMEOUT then
    let r := Sys.QueryServiceStatus os self._svcHandle w
    match r.1 with
    | none => r.2
    | some svcStatus =>
      if svcStatus.dwCurrentState ≠ SERVICE_START_PENDING then r.2
      else startLoop os self (msecs + 250) (Sys.sleep os 250 r.2)
  else w
termination_by STARTUP_TIMEOUT - msecs
decreasing_by omega

/-- The member `start()` (lines 177-196). -/
def start (os : OS σ) (self : WinService) (w : World σ) : Res σ Unit :=
  (open_ os self w).bind fun _ self w =>
    let s := Sys.StartService os self._svcHandle w
    if !s.1 then ⟨.raise (.SystemException "cannot start service" (some self._name)), self, s.2⟩
    else
      let w1 := startLoop os self 0 s.2
      let r := Sys.QueryServiceStatus os self._svcHandle w1
      match r.1 with
      | none =>
        ⟨.raise (.SystemException "cannot query status of starting service" (some self._name)),
          self, r.2⟩
      | some svcStatus =>
        if svcStatus.dwCurrentState ≠ SERVICE_RUNNING then
          ⟨.raise (.SystemException "service failed to start within a reasonable time"
            (some self._name)), self, r.2⟩
        else ⟨.ret (), self, r.2⟩

/-- The member `stop()` (lines 199-205). -/
def stop (os : OS σ) (self : WinService) (w : World σ) : Res σ Unit :=
  (open_ os self w).bind fun _ self w =>
    let r := Sys.ControlService os self._svcHandle SERVICE_CONTROL_STOP w
    if !r.1 then ⟨.raise (.SystemException "cannot stop service" (some self._name)), self, r.2⟩
    else ⟨.ret (), self, r.2⟩

/-- The `switch` of `setStartup` (lines 212-225): the start type sent to the OS. -/
def startTypeOf : Startup → Nat
  | .SVC_AUTO_START => SERVICE_AUTO_START
  | .SVC_MANUAL_START => SERVICE_DEMAND_START
  | .SVC_DISABLED => SERVICE_DISABLED
  | .invalid _ => SERVICE_NO_CHANGE

/-- The member `setStartup(startup)` (lines 208-230). -/
def setStartup (os : OS σ) (startup : Startup) (self : WinService) (w : World σ) : Res σ Unit :=
  (open_ os self w).bind fun _ self w =>
    let startType := startTypeOf startup
    let r := Sys.ChangeServiceConfig os self._svcHandle SERVICE_NO_CHANGE startType
      SERVICE_NO_CHANGE w
    if !r.1 then ⟨.raise (.SystemException "cannot change service startup mode" none), self, r.2⟩
    else ⟨.ret (), self, r.2⟩

/-- The member `getStartup()` (lines 233-256). -/
def getStartup (os : OS σ) (fuel : Nat) (self : WinService) (w : World σ) : Res σ Startup :=
  (config os fuel self w).bind fun pSvcConfig self w =>
    let t := pSvcConfig.2.dwStartType
    if t = SERVICE_AUTO_START ∨ t = SERVICE_BOOT_START ∨ t = SERVICE_SYSTEM_START then
      ⟨.ret .SVC_AUTO_START, self, Sys.LocalFree os pSvcConfig.1 w⟩
    else if t = SERVICE_DEMAND_START then
      ⟨.ret .SVC_MANUAL_START, self, Sys.LocalFree os pSvcConfig.1 w⟩
    else if t = SERVICE_DISABLED then
      ⟨.ret .SVC_DISABLED, self, Sys.LocalFree os pSvcConfig.1 w⟩
    else
      ⟨.ret .SVC_MANUAL_START, self, Sys.LocalFree os pSvcConfig.1 (Sys.poco_debugger w)⟩

end WinService

/-! ## A simulated Control Manager

A small model of the OS side, used where a claim is about an OS that stores what it is given
and gives it back: a registry of service entries, the set of open handles, and fresh handle and
pointer values. -/

/-- One entry of the registry of the simulated OS. `otherBytes` is the size of the texts of the
entry that the source never reads (load order group, dependencies, account name). -/
structure Service where
  name : String
  displayName : String
  serviceType : Nat
  startType : Nat
  errorControl : Nat
  binaryPath : String
  currentState : Nat
  otherBytes : Nat
  deriving DecidableEq, Repr

/-- The state of the simulated OS: the registry, the open service handles (each with the name
of its service), the open manager handles, and a counter for fresh handles and pointers. -/
structure SimState where
  services : List Service
  handles : List (Nat × String)
  managers : List Nat
  next : Nat
  deriving DecidableEq, Repr

namespace Sim

/-- The entry registered under a name. -/
def find (s : SimState) (name : String) : Option Service :=
  s.services.find? (fun v => v.name == name)

/-- The entry an open service handle stands for. -/
def entry (s : SimState) (h : Nat) : Option Service :=
  match s.handles.lookup h with
  | some name => find s name
  | none => none

/-- Apply `f` to the entries registered under a name. -/
def update (s : SimState) (name : String) (f : Service → Service) : SimState :=
  { s with services := s.services.map (fun v => if v.name == name then f v else v) }

/-- The number of bytes a config record needs, as the `DWORD` the OS reports it in: the fixed
part of `QUERY_SERVICE_CONFIG` (36 bytes) and its texts (path and display name, each with its
terminating NUL, and the others), modulo 2^32. -/
def configSize (v : Service) : Nat :=
  (36 + (v.binaryPath.length + 1) + (v.displayName.length + 1) + v.otherBytes) % 4294967296

/-- A fresh handle or pointer: never `0`. -/
def fresh (s : SimState) : Nat := s.next + 1

/-- Simulated `OpenSCManager`: always succeeds. -/
def OpenSCManager (_access : Nat) (s : SimState) : Nat × SimState :=
  (fresh s, { s with managers := fresh s :: s.managers, next := s.next + 1 })

/-- Simulated `OpenService`: succeeds, with a fresh handle, iff the name is registered. -/
def OpenService (_scm : Nat) (name : String) (_access : Nat) (s : SimState) : Nat × SimState :=
  match find s name with
  | some _ => (fresh s, { s with handles := (fresh s, name) :: s.handles, next := s.next + 1 })
  | none => (0, s)

/-- Simulated `CreateService`: fails when the name is taken; otherwise stores the fields of the
request in a new entry (stopped; no load order group, dependencies or account name, three empty
texts) and opens a handle to it. -/
def CreateService (_scm : Nat) (name displayName : String)
    (_access serviceType startType errorControl : Nat) (path : String) (s : SimState) :
    Nat × SimState :=
  match find s name with
  | some _ => (0, s)
  | none =>
    (fresh s,
      { s with
        services :=
          ⟨name, displayName, serviceType, startType, errorControl, path, SERVICE_STOPPED, 3⟩ ::
            s.services
        handles := (fresh s, name) :: s.handles
        next := s.next + 1 })

/-- Simulated `CloseServiceHandle`: the handle is no longer open. -/
def CloseServiceHandle (h : Nat) (s : SimState) : SimState :=
  { s with
    handles := s.handles.filter (fun e => e.1 != h)
    managers := s.managers.filter (fun m => m != h) }

/-- Simulated `DeleteService`: removes the entry of the handle. -/
def DeleteService (h : Nat) (s : SimState) : Bool × SimState :=
  match entry s h with
  | some v => (true, { s with services := s.services.filter (fun e => e.name != v.name) })
  | none => (false, s)

/-- Simulated `QueryServiceStatus`. -/
def QueryServiceStatus (h : Nat) (s : SimState) : Option SERVICE_STATUS × SimState :=
  match entry s h with
  | some v => (some ⟨v.currentState⟩, s)
  | none => (none, s)

/-- Simulated `StartService`: a stopped service is running at once. -/
def StartService (h : Nat) (s : SimState) : Bool × SimState :=
  match entry s h with
  | some v =>
    if v.currentState = SERVICE_STOPPED then
      (true, update s v.name (fun e => { e with currentState := SERVICE_RUNNING }))
    else (false, s)
  | none => (false, s)

/-- Simulated `ControlService`: the stop signal stops a running service. -/
def ControlService (h control : Nat) (s : SimState) : Bool × SimState :=
  match entry s h with
  | some v =>
    if control = SERVICE_CONTROL_STOP ∧ v.currentState = SERVICE_RUNNING then
      (true, update s v.name (fun e => { e with currentState := SERVICE_STOPPED }))
    else (false, s)
  | none => (false, s)

/-- The new value of a field for which `ChangeServiceConfig` was given `new`. -/
def changed (old new : Nat) : Nat := if new = SERVICE_NO_CHANGE then old else new

/-- Simulated `ChangeServiceConfig`: stores the requested values, leaving a field for which
`SERVICE_NO_CHANGE` was given as it is. -/
def ChangeServiceConfig (h serviceType startType errorControl : Nat) (s : SimState) :
    Bool × SimState :=
  match entry s h with
  | some v =>
    (true, update s v.name (fun e =>
      { e with
        serviceType := changed e.serviceType serviceType
        startType := changed e.startType startType
        errorControl := changed e.errorControl errorControl }))
  | none => (false, s)

/-- Simulated `QueryServiceConfig`: reports "buffer too small" with the size needed when the
buffer is smaller than that, refuses to write through a null pointer, and otherwise gives back
the stored fields. -/
def QueryServiceConfig (h buffer size : Nat) (s : SimState) : QueryConfigResult × SimState :=
  match entry s h with
  | some v =>
    if size < configSize v then (.failure ERROR_INSUFFICIENT_BUFFER (configSize v), s)
    else if buffer = 0 then (.failure ERROR_INVALID_ADDRESS 0, s)
    else (.success ⟨v.startType, v.binaryPath, v.displayName⟩, s)
  | none => (.failure ERROR_INVALID_HANDLE 0, s)

/-- Simulated `LocalAlloc`: always succeeds, with a fresh pointer. -/
def LocalAlloc (_flags _size : Nat) (s : SimState) : Nat × SimState :=
  (fresh s, { s with next := s.next + 1 })

/-- The simulated OS, a 64-bit Windows. -/
def os : OS SimState where
  win64 := true
  OpenSCManager := OpenSCManager
  OpenService := OpenService
  CreateService := CreateService
  CloseServiceHandle := CloseServiceHandle
  DeleteService := DeleteService
  QueryServiceStatus := QueryServiceStatus
  StartService := StartService
  ControlService := ControlService
  ChangeServiceConfig := ChangeServiceConfig
  QueryServiceConfig := QueryServiceConfig
  LocalAlloc := LocalAlloc
  LocalFree := fun _ s => s
  sleep := fun _ s => s

/-- The simulated OS with nothing registered and nothing open. -/
def empty : SimState := ⟨[], [], [], 0⟩

/-- The simulated OS with one service, "Acme", registered and stopped. -/
def acme : SimState :=
  ⟨[⟨"Acme", "Acme Daemon", SERVICE_WIN32_OWN_PROCESS, SERVICE_DEMAND_START,
      SERVICE_ERROR_NORMAL, "/opt/acme/bin/acme", SERVICE_STOPPED, 3⟩], [], [], 0⟩

/-- The simulated OS short of memory: no block of more than 4096 bytes can be allocated. -/
def lowMemory : OS SimState :=
  { os with
    LocalAlloc := fun flags size s => if size ≤ 4096 then LocalAlloc flags size s else (0, s) }

/-- The simulated OS with one service, "Big", whose config record needs 5000 bytes (it has a
long list of dependencies). -/
def big : SimState :=
  ⟨[⟨"Big", "Big", SERVICE_WIN32_OWN_PROCESS, SERVICE_DEMAND_START,
      SERVICE_ERROR_NORMAL, "/opt/big", SERVICE_STOPPED, 4951⟩], [], [], 0⟩

/-- The simulated OS with one service, "Odd", whose stored start type (7) is none of the five
documented ones. -/
def odd : SimState :=
  ⟨[⟨"Odd", "Odd", SERVICE_WIN32_OWN_PROCESS, 7, SERVICE_ERROR_NORMAL, "/opt/odd",
      SERVICE_STOPPED, 3⟩], [], [], 0⟩

end Sim

/-- An OS whose services never leave "start pending": every open and every start request is
accepted, every status query succeeds and reports "start pending". -/
def stuck : OS Unit where
  win64 := true
  OpenSCManager := fun _ s => (1, s)
  OpenService := fun _ _ _ s => (2, s)
  CreateService := fun _ _ _ _ _ _ _ _ s => (2, s)
  CloseServiceHandle := fun _ s => s
  DeleteService := fun _ s => (true, s)
  QueryServiceStatus := fun _ s => (some ⟨SERVICE_START_PENDING⟩, s)
  StartService := fun _ s => (true, s)
  ControlService := fun _ _ s => (true, s)
  ChangeServiceConfig := fun _ _ _ _ s => (true, s)
  QueryServiceConfig := fun _ _ _ s => (.failure ERROR_INVALID_HANDLE 0, s)
  LocalAlloc := fun _ _ s => (3, s)
  LocalFree := fun _ s => s
  sleep := fun _ s => s

/-! ## Scenarios -/

/-- The world after this sequence on the simulated OS with "Acme" registered: construct the
object for "Acme", call `isRegistered()` twice, destroy the object. -/
def askedTwice : World SimState :=
  let c := WinService.ctor Sim.os "Acme" ⟨Sim.acme, []⟩
  let r1 := WinService.isRegistered Sim.os c.self c.world
  let r2 := WinService.isRegistered Sim.os r1.self r1.world
  WinService.dtor Sim.os r2.self r2.world

/-- The service handles a log acquired: the results, other than `NULL`, of its `OpenService`
and `CreateService` calls, in order. -/
def acquired : List Call → List Nat
  | [] => []
  | Call.OpenService _ _ _ h :: rest => if h = 0 then acquired rest else h :: acquired rest
  | Call.CreateService _ _ _ _ _ _ _ _ h :: rest =>
    if h = 0 then acquired rest else h :: acquired rest
  | _ :: rest => acquired rest

/-- The handles a log released: the arguments of its `CloseServiceHandle` calls, in order. -/
def released : List Call → List Nat
  | [] => []
  | Call.CloseServiceHandle h :: rest => h :: released rest
  | _ :: rest => released rest

/-! ## The error kinds of the spec, as the source throws them -/

/-- The spec's `NotFound`: what `open()` throws (line 262). -/
def NotFound (name : String) : Exn := .NotFoundException "service does not exist" (some name)

/-- The spec's `StartFailed`: what `start()` throws when `StartService` fails (line 181). -/
def StartFailed (name : String) : Exn := .SystemException "cannot start service" (some name)

/-- The spec's `QueryFailed` of `start()`: thrown when the status query after the loop fails
(line 193). -/
def StartQueryFailed (name : String) : Exn :=
  .SystemException "cannot query status of starting service" (some name)

/-- The spec's `StartTimeout`: thrown when the state after the loop is not Running
(line 195). -/
def StartTimeout (name : String) : Exn :=
  .SystemException "service failed to start within a reasonable time" (some name)

/-- The spec's `QueryFailed` of `config()`: thrown when the config query fails with an error
other than "buffer too small" (line 309). -/
def ConfigQueryFailed (name : String) : Exn :=
  .SystemException "cannot query service configuration" (some name)

/-- The spec's `AllocationFailed`: thrown when the buffer cannot be allocated (line 294). -/
def AllocationFailed : Exn := .OutOfMemoryException "cannot allocate service config buffer"

/-! ## Reading a log -/

/-- The results of the status queries of a log, in order. -/
def statusQueries : List Call → List (Option SERVICE_STATUS)
  | [] => []
  | Call.QueryServiceStatus _ r :: rest => r :: statusQueries rest
  | _ :: rest => statusQueries rest

/-- The results of the start requests of a log, in order. -/
def startRequests : List Call → List Bool
  | [] => []
  | Call.StartService _ r :: rest => r :: startRequests rest
  | _ :: rest => startRequests rest

/-- The lengths (in ms) of the sleeps of a log, in order. -/
def sleeps : List Call → List Nat
  | [] => []
  | Call.sleep ms :: rest => ms :: sleeps rest
  | _ :: rest => sleeps rest

/-- The status queries and sleeps of a log, in order: the calls of polling. -/
def pollCalls : List Call → List Call
  | [] => []
  | Call.QueryServiceStatus h r :: rest => Call.QueryServiceStatus h r :: pollCalls rest
  | Call.sleep ms :: rest => Call.sleep ms :: pollCalls rest
  | _ :: rest => pollCalls rest

/-- The buffers handed to the config queries of a log, in order. -/
def queryBuffers : List Call → List Nat
  | [] => []
  | Call.QueryServiceConfig _ b _ _ :: rest => b :: queryBuffers rest
  | _ :: rest => queryBuffers rest

/-- The calls of `k` rounds of the loop of `start()` in which the state was "start pending":
each a status query and a sleep of 250 ms. -/
def pendingRounds (h : Nat) : Nat → List Call
  | 0 => []
  | k + 1 =>
    Call.QueryServiceStatus h (some ⟨SERVICE_START_PENDING⟩) :: Call.sleep 250 ::
      pendingRounds h k

/-- The calls of the rounds of the loop of `config()` in which the OS reported "buffer too
small": from the buffer `p` and the value `size` of the `int`, for each report (the size `n`
the OS asked for, the pointer `q` the reallocation gave) a query, the release of the buffer and
the reallocation. -/
def retryCalls (win64 : Bool) (h : Nat) : Nat → Int → List (Nat × Nat) → List Call
  | _, _, [] => []
  | p, size, (n, q) :: rest =>
    Call.QueryServiceConfig h p (int_to_DWORD size) (.failure ERROR_INSUFFICIENT_BUFFER n) ::
      Call.LocalFree p :: Call.LocalAlloc LPTR (int_to_SIZE_T win64 (DWORD_to_int n)) q ::
        retryCalls win64 h q (DWORD_to_int n) rest

open WinService

/-! ## Reading a log: appending -/

theorem statusQueries_append (a b : List Call) :
    statusQueries (a ++ b) = statusQueries a ++ statusQueries b := by
  induction a with
  | nil => rfl
  | cons c t ih => cases c <;> simp [statusQueries, ih]

theorem startRequests_append (a b : List Call) :
    startRequests (a ++ b) = startRequests a ++ startRequests b := by
  induction a with
  | nil => rfl
  | cons c t ih => cases c <;> simp [startRequests, ih]

theorem sleeps_append (a b : List Call) : sleeps (a ++ b) = sleeps a ++ sleeps b := by
  induction a with
  | nil => rfl
  | cons c t ih => cases c <;> simp [sleeps, ih]

theorem pollCalls_append (a b : List Call) : pollCalls (a ++ b) = pollCalls a ++ pollCalls b := by
  induction a with
  | nil => rfl
  | cons c t ih => cases c <;> simp [pollCalls, ih]

theorem statusQueries_pendingRounds (h k : Nat) :
    statusQueries (pendingRounds h k) = List.replicate k (some ⟨SERVICE_START_PENDING⟩) := by
  induction k with
  | zero => rfl
  | succ k ih => simp [pendingRounds, statusQueries, ih, List.replicate_succ]

theorem startRequests_pendingRounds (h k : Nat) : startRequests (pendingRounds h k) = [] := by
  induction k with
  | zero => rfl
  | succ k ih => simp [pendingRounds, startRequests, ih]

theorem sleeps_pendingRounds (h k : Nat) : sleeps (pendingRounds h k) = List.replicate k 250 := by
  induction k with
  | zero => rfl
  | succ k ih => simp [pendingRounds, sleeps, ih, List.replicate_succ]

theorem pollCalls_pendingRounds (h k : Nat) : pollCalls (pendingRounds h k) = pendingRounds h k := by
  induction k with
  | zero => rfl
  | succ k ih => simp [pendingRounds, pollCalls, ih]

/-! ## The loop of `start()` -/

/-- The calls of the loop of `start()`: rounds of "start pending", then either nothing (the
time is up) or one more status query, which failed or reported another state. -/
theorem startLoop_log (os : OS σ) (self : WinService) (msecs : Nat) (w : World σ) :
    ∃ k tail, (startLoop os self msecs w).log =
        w.log ++ (pendingRounds self._svcHandle k ++ tail) ∧
      ((tail = [] ∧ STARTUP_TIMEOUT ≤ msecs + 250 * k) ∨
        (∃ r, tail = [Call.QueryServiceStatus self._svcHandle r] ∧
          msecs + 250 * k < STARTUP_TIMEOUT ∧
          (r = none ∨ ∃ st, r = some st ∧ st.dwCurrentState ≠ SERVICE_START_PENDING) ∧
          ∃ s, r = (os.QueryServiceStatus self._svcHandle s).1)) ∧
      (k = 0 ∨ msecs + 250 * k < STARTUP_TIMEOUT + 250) := by
  generalize hn : STARTUP_TIMEOUT - msecs = n
  induction n using Nat.strong_induction_on generalizing msecs w with
  | _ n ih =>
    rw [startLoop]
    by_cases hlt : msecs < STARTUP_TIMEOUT
    · simp only [hlt, if_true]
      cases hq : (Sys.QueryServiceStatus os self._svcHandle w).1 with
      | none =>
        refine ⟨0, [Call.QueryServiceStatus self._svcHandle none], ?_, ?_, Or.inl rfl⟩
        · simp [Sys.QueryServiceStatus, pendingRounds] at hq ⊢
          exact hq
        · exact Or.inr ⟨none, rfl, by simpa using hlt, Or.inl rfl, w.os, hq.symm⟩
      | some st =>
        by_cases hp : st.dwCurrentState ≠ SERVICE_START_PENDING
        · refine ⟨0, [Call.QueryServiceStatus self._svcHandle (some st)], ?_, ?_, Or.inl rfl⟩
          · simp [Sys.QueryServiceStatus, pendingRounds, hp] at hq ⊢
            exact hq
          · exact Or.inr ⟨some st, rfl, by simpa using hlt, Or.inr ⟨st, rfl, hp⟩, w.os, hq.symm⟩
        · have hp' : st.dwCurrentState = SERVICE_START_PENDING := not_not.mp hp
          have hst : st = ⟨SERVICE_START_PENDING⟩ := by cases st; simpa using hp'
          obtain ⟨k, tail, hlog, htail, hk⟩ :=
            ih (STARTUP_TIMEOUT - (msecs + 250)) (by omega) (msecs + 250)
              (Sys.sleep os 250 (Sys.QueryServiceStatus os self._svcHandle w).2) rfl
          refine ⟨k + 1, tail, ?_, ?_, Or.inr ?_⟩
          · simp only [hp, if_false]
            rw [hlog]
            simp [Sys.QueryServiceStatus, Sys.sleep, pendingRounds] at hq ⊢
            rw [hq, hst]
          · rcases htail with ⟨h1, h2⟩ | ⟨r, h1, h2, h3, h4⟩
            · exact Or.inl ⟨h1, by omega⟩
            · exact Or.inr ⟨r, h1, by omega, h3, h4⟩
          · rcases hk with h0 | h1
            · subst h0; omega
            · omega
    · refine ⟨0, [], ?_, Or.inl ⟨rfl, by omega⟩, Or.inl rfl⟩
      simp [hlt, pendingRounds]

/-! ## `open()` and `start()` -/

theorem open_fails (os : OS σ) (self : WinService) (w : World σ)
    (hfail : (os.OpenService self._scmHandle (c_str self._name) SERVICE_ALL_ACCESS w.os).1 = 0) :
    open_ os self w = ⟨.raise (NotFound self._name), { self with _svcHandle := 0 },
      ⟨(os.OpenService self._scmHandle (c_str self._name) SERVICE_ALL_ACCESS w.os).2,
        w.log ++ [Call.OpenService self._scmHandle (c_str self._name) SERVICE_ALL_ACCESS 0]⟩⟩ := by
  simp [open_, tryOpen, Sys.OpenService, hfail, NotFound]

theorem open_succeeds (os : OS σ) (self : WinService) (w : World σ)
    (hopen : (os.OpenService self._scmHandle (c_str self._name) SERVICE_ALL_ACCESS w.os).1 ≠ 0) :
    open_ os self w = ⟨.ret (),
      { self with
        _svcHandle :=
          (os.OpenService self._scmHandle (c_str self._name) SERVICE_ALL_ACCESS w.os).1 },
      ⟨(os.OpenService self._scmHandle (c_str self._name) SERVICE_ALL_ACCESS w.os).2,
        w.log ++ [Call.OpenService self._scmHandle (c_str self._name) SERVICE_ALL_ACCESS
          (os.OpenService self._scmHandle (c_str self._name) SERVICE_ALL_ACCESS w.os).1]⟩⟩ := by
  simp [open_, tryOpen, Sys.OpenService, hopen]

/-- When the service cannot be opened, `start()` throws `NotFound` after the one call. -/
theorem start_notFound (os : OS σ) (self : WinService) (w : World σ)
    (hfail : (os.OpenService self._scmHandle (c_str self._name) SERVICE_ALL_ACCESS w.os).1 = 0) :
    (start os self w).out = .raise (NotFound self._name) ∧
      (start os self w).world.log =
        w.log ++ [Call.OpenService self._scmHandle (c_str self._name) SERVICE_ALL_ACCESS 0] := by
  simp [start, open_fails os self w hfail, Res.bind]

/-- When the OS rejects the start request, `start()` throws `StartFailed` at once. -/
theorem start_rejected (os : OS σ) (self : WinService) (w : World σ)
    (hopen : (os.OpenService self._scmHandle (c_str self._name) SERVICE_ALL_ACCESS w.os).1 ≠ 0)
    (hrej : (os.StartService
      (os.OpenService self._scmHandle (c_str self._name) SERVICE_ALL_ACCESS w.os).1
      (os.OpenService self._scmHandle (c_str self._name) SERVICE_ALL_ACCESS w.os).2).1 = false) :
    (start os self w).out = .raise (StartFailed self._name) ∧
      (start os self w).self._svcHandle =
        (os.OpenService self._scmHandle (c_str self._name) SERVICE_ALL_ACCESS w.os).1 ∧
      (start os self w).world.log =
        w.log ++ [Call.OpenService self._scmHandle (c_str self._name) SERVICE_ALL_ACCESS
            (os.OpenService self._scmHandle (c_str self._name) SERVICE_ALL_ACCESS w.os).1,
          Call.StartService
            (os.OpenService self._scmHandle (c_str self._name) SERVICE_ALL_ACCESS w.os).1
            false] := by
  simp [start, open_succeeds os self w hopen, Res.bind, Sys.StartService, hrej, StartFailed]

/-- When the OS accepts the start request: the calls of `start()` and how it ends. -/
theorem start_accepted (os : OS σ) (self : WinService) (w : World σ)
    (hopen : (os.OpenService self._scmHandle (c_str self._name) SERVICE_ALL_ACCESS w.os).1 ≠ 0)
    (hacc : (os.StartService
      (os.OpenService self._scmHandle (c_str self._name) SERVICE_ALL_ACCESS w.os).1
      (os.OpenService self._scmHandle (c_str self._name) SERVICE_ALL_ACCESS w.os).2).1 = true) :
    ∃ h k tail q, h = (start os self w).self._svcHandle ∧
      h = (os.OpenService self._scmHandle (c_str self._name) SERVICE_ALL_ACCESS w.os).1 ∧
      (start os self w).world.log =
        w.log ++ ([Call.OpenService self._scmHandle (c_str self._name) SERVICE_ALL_ACCESS h,
          Call.StartService h true] ++ pendingRounds h k ++ tail ++
            [Call.QueryServiceStatus h q]) ∧
      ((tail = [] ∧ k = 120) ∨
        (∃ r, tail = [Call.QueryServiceStatus h r] ∧ k < 120 ∧
          (r = none ∨ ∃ st, r = some st ∧ st.dwCurrentState ≠ SERVICE_START_PENDING) ∧
          ∃ s, r = (os.QueryServiceStatus h s).1)) ∧
      (∃ s, q = (os.QueryServiceStatus h s).1) ∧
      (q = none → (start os self w).out = .raise (StartQueryFailed self._name)) ∧
      (∀ st, q = some st → st.dwCurrentState ≠ SERVICE_RUNNING →
        (start os self w).out = .raise (StartTimeout self._name)) ∧
      (∀ st, q = some st → st.dwCurrentState = SERVICE_RUNNING →
        (start os self w).out = .ret ()) := by
  have e := open_succeeds os self w hopen
  generalize hh : (os.OpenService self._scmHandle (c_str self._name) SERVICE_ALL_ACCESS w.os).1 = h
    at *
  generalize hs1 : (os.OpenService self._scmHandle (c_str self._name) SERVICE_ALL_ACCESS w.os).2 =
    s1 at *
  obtain ⟨k, tail, hlog, htail, hk⟩ := startLoop_log os ⟨self._name, self._scmHandle, h⟩ 0
    ⟨(os.StartService h s1).2,
      w.log ++ [Call.OpenService self._scmHandle (c_str self._name) SERVICE_ALL_ACCESS h] ++
        [Call.StartService h true]⟩
  generalize hw3 : startLoop os ⟨self._name, self._scmHandle, h⟩ 0
    ⟨(os.StartService h s1).2,
      w.log ++ [Call.OpenService self._scmHandle (c_str self._name) SERVICE_ALL_ACCESS h] ++
        [Call.StartService h true]⟩ = w3 at hlog
  simp only [STARTUP_TIMEOUT] at htail hk
  have hstart : start os self w =
      match (os.QueryServiceStatus h w3.os).1 with
      | none => ⟨.raise (StartQueryFailed self._name), ⟨self._name, self._scmHandle, h⟩,
          ⟨(os.QueryServiceStatus h w3.os).2, w3.log ++ [Call.QueryServiceStatus h none]⟩⟩
      | some st =>
        if st.dwCurrentState ≠ SERVICE_RUNNING then
          ⟨.raise (StartTimeout self._name), ⟨self._name, self._scmHandle, h⟩,
            ⟨(os.QueryServiceStatus h w3.os).2, w3.log ++ [Call.QueryServiceStatus h (some st)]⟩⟩
        else
          ⟨.ret (), ⟨self._name, self._scmHandle, h⟩,
            ⟨(os.QueryServiceStatus h w3.os).2,
              w3.log ++ [Call.QueryServiceStatus h (some st)]⟩⟩ := by
    simp only [start, e, Res.bind, Sys.StartService, hacc, Sys.QueryServiceStatus]
    simp only [Bool.not_true, Bool.false_eq_true, if_false, hw3]
    cases hq : (os.QueryServiceStatus h w3.os).1 with
    | none => simp [StartQueryFailed]
    | some st => by_cases hr : st.dwCurrentState = SERVICE_RUNNING <;> simp [hr, StartTimeout]
  have htail' : (tail = [] ∧ k = 120) ∨
      (∃ r, tail = [Call.QueryServiceStatus h r] ∧ k < 120 ∧
        (r = none ∨ ∃ st, r = some st ∧ st.dwCurrentState ≠ SERVICE_START_PENDING) ∧
        ∃ s, r = (os.QueryServiceStatus h s).1) := by
    rcases htail with ⟨h1, h2⟩ | ⟨r, h1, h2, h3, h4⟩
    · exact Or.inl ⟨h1, by omega⟩
    · exact Or.inr ⟨r, h1, by omega, h3, h4⟩
  refine ⟨h, k, tail, (os.QueryServiceStatus h w3.os).1, ?_, rfl, ?_, htail', ⟨w3.os, rfl⟩, ?_, ?_, ?_⟩
  · rw [hstart]
    cases (os.QueryServiceStatus h w3.os).1 with
    | none => rfl
    | some st => by_cases hr : st.dwCurrentState = SERVICE_RUNNING <;> simp [hr]
  · rw [hstart]
    cases (os.QueryServiceStatus h w3.os).1 with
    | none => simp [hlog]
    | some st => by_cases hr : st.dwCurrentState = SERVICE_RUNNING <;> simp [hr, hlog]
  · intro hq
    rw [hstart, hq]
  · intro st hq hr
    rw [hstart, hq]
    simp [hr]
  · intro st hq hr
    rw [hstart, hq]
    simp [hr]

/-! ## The four ways `start()` ends are different -/

theorem start_ends_distinct (n : String) :
    StartFailed n ≠ StartQueryFailed n ∧ StartFailed n ≠ StartTimeout n ∧
      StartQueryFailed n ≠ StartTimeout n := by
  refine ⟨?_, ?_, ?_⟩ <;>
    · intro h
      injection h with h1 _
      exact absurd h1 (by decide)

/-- C1. When the service opens, `start()` ends in exactly one of four ways. With `accepted` the
answer of the OS to the one start request: it throws `StartFailed` iff the request was rejected,
and then no status query was issued; otherwise its last call is the status query issued after
the poll loop, with result `q`, and it throws `QueryFailed` iff that query failed, throws
`StartTimeout` iff it succeeded with a state other than Running, and returns iff it succeeded
with the state Running. -/
theorem start_outcome (os : OS σ) (self : WinService) (w : World σ)
    (hopen : (os.OpenService self._scmHandle (c_str self._name) SERVICE_ALL_ACCESS w.os).1 ≠ 0) :
    ∃ ev accepted, (start os self w).world.log = w.log ++ ev ∧
      startRequests ev = [accepted] ∧
      ((start os self w).out = .raise (StartFailed self._name) ∨
        (start os self w).out = .raise (StartQueryFailed self._name) ∨
        (start os self w).out = .raise (StartTimeout self._name) ∨
        (start os self w).out = .ret ()) ∧
      ((start os self w).out = .raise (StartFailed self._name) ↔ accepted = false) ∧
      (accepted = false → statusQueries ev = []) ∧
      (accepted = true → ∃ pre q,
        ev = pre ++ [Call.QueryServiceStatus (start os self w).self._svcHandle q] ∧
        ((start os self w).out = .raise (StartQueryFailed self._name) ↔ q = none) ∧
        ((start os self w).out = .raise (StartTimeout self._name) ↔
          ∃ st, q = some st ∧ st.dwCurrentState ≠ SERVICE_RUNNING) ∧
        ((start os self w).out = .ret () ↔
          ∃ st, q = some st ∧ st.dwCurrentState = SERVICE_RUNNING)) := by
  obtain ⟨d1, d2, d3⟩ := start_ends_distinct self._name
  cases hs : (os.StartService
      (os.OpenService self._scmHandle (c_str self._name) SERVICE_ALL_ACCESS w.os).1
      (os.OpenService self._scmHandle (c_str self._name) SERVICE_ALL_ACCESS w.os).2).1 with
  | false =>
    obtain ⟨hout, _, hlog⟩ := start_rejected os self w hopen hs
    refine ⟨_, false, hlog, ?_, Or.inl hout, ?_, ?_, ?_⟩
    · simp [startRequests]
    · simp [hout]
    · intro _
      simp [statusQueries]
    · intro h
      exact absurd h (by decide)
  | true =>
    obtain ⟨h, k, tail, q, hh, _, hlog, htail, _, hnone, htimeout, hret⟩ :=
      start_accepted os self w hopen hs
    have hreq : startRequests ([Call.OpenService self._scmHandle (c_str self._name)
        SERVICE_ALL_ACCESS h, Call.StartService h true] ++ pendingRounds h k ++ tail ++
          [Call.QueryServiceStatus h q]) = [true] := by
      rcases htail with ⟨h1, _⟩ | ⟨r, h1, _⟩ <;>
        simp [h1, startRequests_append, startRequests_pendingRounds, startRequests]
    refine ⟨_, true, hlog, hreq, ?_, ?_, ?_, ?_⟩
    · cases q with
      | none => exact Or.inr (Or.inl (hnone rfl))
      | some st =>
        by_cases hr : st.dwCurrentState = SERVICE_RUNNING
        · exact Or.inr (Or.inr (Or.inr (hret st rfl hr)))
        · exact Or.inr (Or.inr (Or.inl (htimeout st rfl hr)))
    · cases q with
      | none =>
        rw [hnone rfl]
        simp [Ne.symm d1]
      | some st =>
        by_cases hr : st.dwCurrentState = SERVICE_RUNNING
        · rw [hret st rfl hr]
          simp
        · rw [htimeout st rfl hr]
          simp [Ne.symm d2]
    · intro h
      exact absurd h (by decide)
    · intro _
      refine ⟨[Call.OpenService self._scmHandle (c_str self._name) SERVICE_ALL_ACCESS h,
        Call.StartService h true] ++ pendingRounds h k ++ tail, q, ?_, ?_, ?_, ?_⟩
      · rw [← hh]
      · cases q with
        | none => simp [hnone rfl]
        | some st =>
          by_cases hr : st.dwCurrentState = SERVICE_RUNNING
          · rw [hret st rfl hr]
            simp
          · rw [htimeout st rfl hr]
            simp [Ne.symm d3]
      · cases q with
        | none =>
          rw [hnone rfl]
          simp [d3]
        | some st =>
          by_cases hr : st.dwCurrentState = SERVICE_RUNNING
          · rw [hret st rfl hr]
            simp [hr]
          · rw [htimeout st rfl hr]
            simp [hr]
      · cases q with
        | none =>
          rw [hnone rfl]
          simp
        | some st =>
          by_cases hr : st.dwCurrentState = SERVICE_RUNNING
          · rw [hret st rfl hr]
            simp [hr]
          · rw [htimeout st rfl hr]
            simp [hr]

/-- Witness of C1: the simulated OS with "Acme" registered. -/
theorem start_outcome_witness :
    (Sim.os.OpenService 1 (c_str "Acme") SERVICE_ALL_ACCESS Sim.acme).1 ≠ 0 ∧
    ∃ ev accepted, (start Sim.os ⟨"Acme", 1, 0⟩ ⟨Sim.acme, []⟩).world.log = [] ++ ev ∧
      startRequests ev = [accepted] ∧
      ((start Sim.os ⟨"Acme", 1, 0⟩ ⟨Sim.acme, []⟩).out = .raise (StartFailed "Acme") ∨
        (start Sim.os ⟨"Acme", 1, 0⟩ ⟨Sim.acme, []⟩).out = .raise (StartQueryFailed "Acme") ∨
        (start Sim.os ⟨"Acme", 1, 0⟩ ⟨Sim.acme, []⟩).out = .raise (StartTimeout "Acme") ∨
        (start Sim.os ⟨"Acme", 1, 0⟩ ⟨Sim.acme, []⟩).out = .ret ()) ∧
      ((start Sim.os ⟨"Acme", 1, 0⟩ ⟨Sim.acme, []⟩).out = .raise (StartFailed "Acme") ↔
        accepted = false) ∧
      (accepted = false → statusQueries ev = []) ∧
      (accepted = true → ∃ pre q,
        ev = pre ++ [Call.QueryServiceStatus
          (start Sim.os ⟨"Acme", 1, 0⟩ ⟨Sim.acme, []⟩).self._svcHandle q] ∧
        ((start Sim.os ⟨"Acme", 1, 0⟩ ⟨Sim.acme, []⟩).out = .raise (StartQueryFailed "Acme") ↔
          q = none) ∧
        ((start Sim.os ⟨"Acme", 1, 0⟩ ⟨Sim.acme, []⟩).out = .raise (StartTimeout "Acme") ↔
          ∃ st, q = some st ∧ st.dwCurrentState ≠ SERVICE_RUNNING) ∧
        ((start Sim.os ⟨"Acme", 1, 0⟩ ⟨Sim.acme, []⟩).out = .ret () ↔
          ∃ st, q = some st ∧ st.dwCurrentState = SERVICE_RUNNING)) :=
  ⟨by decide, start_outcome Sim.os ⟨"Acme", 1, 0⟩ ⟨Sim.acme, []⟩ (by decide)⟩

/-- C2. The poll loop of `start()` is bounded. Among the calls `ev` of `start()`: every sleep
is of 250 ms, so the time slept is 250 ms times the number of sleeps; there are at most 120
sleeps (30,000 ms) and at most 121 status queries; the status queries and sleeps are `k` rounds
of (query reporting "start pending", sleep), then either nothing (`k = 120`, the time is up) or
one query that failed or reported another state (`k < 120`, the loop stops there), then the one
query after the loop. And when the open and the start request succeed on an OS whose status
queries always succeed and report "start pending", `start()` sleeps exactly 120 times, 30,000 ms
in all, and throws `StartTimeout`. -/
theorem start_poll_bounded (os : OS σ) (self : WinService) (w : World σ) :
    ∃ ev, (start os self w).world.log = w.log ++ ev ∧
      (∀ ms ∈ sleeps ev, ms = 250) ∧
      (sleeps ev).sum = 250 * (sleeps ev).length ∧
      (sleeps ev).length ≤ 120 ∧
      (sleeps ev).sum ≤ 30000 ∧
      (statusQueries ev).length ≤ 121 ∧
      (pollCalls ev = [] ∨
        ∃ k tail q,
          pollCalls ev = pendingRounds (start os self w).self._svcHandle k ++ tail ++
            [Call.QueryServiceStatus (start os self w).self._svcHandle q] ∧
          ((tail = [] ∧ k = 120) ∨
            ∃ r, tail = [Call.QueryServiceStatus (start os self w).self._svcHandle r] ∧ k < 120 ∧
              (r = none ∨ ∃ st, r = some st ∧ st.dwCurrentState ≠ SERVICE_START_PENDING))) ∧
      ((os.OpenService self._scmHandle (c_str self._name) SERVICE_ALL_ACCESS w.os).1 ≠ 0 →
        (os.StartService
          (os.OpenService self._scmHandle (c_str self._name) SERVICE_ALL_ACCESS w.os).1
          (os.OpenService self._scmHandle (c_str self._name) SERVICE_ALL_ACCESS w.os).2).1 = true →
        (∀ h s, (os.QueryServiceStatus h s).1 = some ⟨SERVICE_START_PENDING⟩) →
        (sleeps ev).length = 120 ∧ (sleeps ev).sum = 30000 ∧
          (start os self w).out = .raise (StartTimeout self._name)) := by
  by_cases hopen :
      (os.OpenService self._scmHandle (c_str self._name) SERVICE_ALL_ACCESS w.os).1 = 0
  · obtain ⟨_, hlog⟩ := start_notFound os self w hopen
    refine ⟨_, hlog, ?_, ?_, ?_, ?_, ?_, Or.inl ?_, ?_⟩ <;> simp [sleeps, statusQueries, pollCalls]
    intro h
    exact absurd hopen h
  · cases hs : (os.StartService
        (os.OpenService self._scmHandle (c_str self._name) SERVICE_ALL_ACCESS w.os).1
        (os.OpenService self._scmHandle (c_str self._name) SERVICE_ALL_ACCESS w.os).2).1 with
    | false =>
      obtain ⟨_, _, hlog⟩ := start_rejected os self w hopen hs
      refine ⟨_, hlog, ?_, ?_, ?_, ?_, ?_, Or.inl ?_, ?_⟩ <;>
        simp [sleeps, statusQueries, pollCalls]
    | true =>
      obtain ⟨h, k, tail, q, hh, _, hlog, htail, ⟨sq, hq⟩, _, htimeout, _⟩ :=
        start_accepted os self w hopen hs
      have hk : k ≤ 120 := by
        rcases htail with ⟨_, h2⟩ | ⟨r, _, h2, _⟩ <;> omega
      have hsl : sleeps ([Call.OpenService self._scmHandle (c_str self._name)
          SERVICE_ALL_ACCESS h, Call.StartService h true] ++ pendingRounds h k ++ tail ++
            [Call.QueryServiceStatus h q]) = List.replicate k 250 := by
        rcases htail with ⟨h1, _⟩ | ⟨r, h1, _⟩ <;>
          simp [h1, sleeps_append, sleeps_pendingRounds, sleeps]
      have hqs : (statusQueries ([Call.OpenService self._scmHandle (c_str self._name)
          SERVICE_ALL_ACCESS h, Call.StartService h true] ++ pendingRounds h k ++ tail ++
            [Call.QueryServiceStatus h q])).length ≤ 121 := by
        rcases htail with ⟨h1, h2⟩ | ⟨r, h1, h2, _⟩
        · simp [h1, statusQueries_append, statusQueries_pendingRounds, statusQueries]
          omega
        · simp [h1, statusQueries_append, statusQueries_pendingRounds, statusQueries]
          omega
      have hpc : pollCalls ([Call.OpenService self._scmHandle (c_str self._name)
          SERVICE_ALL_ACCESS h, Call.StartService h true] ++ pendingRounds h k ++ tail ++
            [Call.QueryServiceStatus h q]) =
          pendingRounds h k ++ tail ++ [Call.QueryServiceStatus h q] := by
        rcases htail with ⟨h1, _⟩ | ⟨r, h1, _⟩ <;>
          simp [h1, pollCalls_append, pollCalls_pendingRounds, pollCalls]
      refine ⟨_, hlog, ?_, ?_, ?_, ?_, hqs, Or.inr ⟨k, tail, q, ?_, ?_⟩, ?_⟩
      · rw [hsl]
        intro ms hms
        exact (List.mem_replicate.mp hms).2
      · rw [hsl]
        simp [Nat.mul_comm]
      · rw [hsl]
        simpa using hk
      · rw [hsl]
        simp
        omega
      · rw [← hh]
        exact hpc
      · rw [← hh]
        rcases htail with ht | ⟨r, h1, h2, h3, _⟩
        · exact Or.inl ht
        · exact Or.inr ⟨r, h1, h2, h3⟩
      · intro _ _ hp
        have hk120 : k = 120 := by
          rcases htail with ⟨_, h2⟩ | ⟨r, _, _, h3, s, h4⟩
          · exact h2
          · rw [hp h s] at h4
            rcases h3 with h3 | ⟨st, h3, h5⟩
            · rw [h3] at h4
              exact absurd h4 (by simp)
            · rw [h3] at h4
              injection h4 with h4
              rw [h4] at h5
              exact absurd rfl h5
        rw [hsl, hk120]
        refine ⟨by simp, by simp, ?_⟩
        rw [hp h sq] at hq
        exact htimeout _ hq (by decide)

/-- Witness of C2: the OS `stuck`, whose services never leave "start pending". -/
theorem start_poll_bounded_witness :
    ∃ ev, (start stuck ⟨"Acme", 1, 0⟩ ⟨(), []⟩).world.log = ev ∧
      (sleeps ev).length = 120 ∧ (sleeps ev).sum = 30000 ∧
      (start stuck ⟨"Acme", 1, 0⟩ ⟨(), []⟩).out = .raise (StartTimeout "Acme") := by
  obtain ⟨ev, hlog, _, _, _, _, _, _, h⟩ := start_poll_bounded stuck ⟨"Acme", 1, 0⟩ ⟨(), []⟩
  exact ⟨ev, by simpa using hlog, h (by decide) (by decide) (fun _ _ => rfl)⟩

/-- C6. When the OS cannot open the service, each of `unregisterService()`, `isRunning()`,
`start()`, `stop()`, `setStartup()`, `getStartup()`, `displayName()` and `path()` throws
`NotFound`, and the failed open is the only call it made; `isRegistered()` returns false. -/
theorem notFound_when_open_fails (os : OS σ) (self : WinService) (w : World σ)
    (fuel : Nat) (startup : Startup)
    (hfail : (os.OpenService self._scmHandle (c_str self._name) SERVICE_ALL_ACCESS w.os).1 = 0) :
    ((unregisterService os self w).out = .raise (NotFound self._name) ∧
      (unregisterService os self w).world.log =
        w.log ++ [Call.OpenService self._scmHandle (c_str self._name) SERVICE_ALL_ACCESS 0]) ∧
    ((isRunning os self w).out = .raise (NotFound self._name) ∧
      (isRunning os self w).world.log =
        w.log ++ [Call.OpenService self._scmHandle (c_str self._name) SERVICE_ALL_ACCESS 0]) ∧
    ((start os self w).out = .raise (NotFound self._name) ∧
      (start os self w).world.log =
        w.log ++ [Call.OpenService self._scmHandle (c_str self._name) SERVICE_ALL_ACCESS 0]) ∧
    ((stop os self w).out = .raise (NotFound self._name) ∧
      (stop os self w).world.log =
        w.log ++ [Call.OpenService self._scmHandle (c_str self._name) SERVICE_ALL_ACCESS 0]) ∧
    ((setStartup os startup self w).out = .raise (NotFound self._name) ∧
      (setStartup os startup self w).world.log =
        w.log ++ [Call.OpenService self._scmHandle (c_str self._name) SERVICE_ALL_ACCESS 0]) ∧
    ((getStartup os fuel self w).out = .raise (NotFound self._name) ∧
      (getStartup os fuel self w).world.log =
        w.log ++ [Call.OpenService self._scmHandle (c_str self._name) SERVICE_ALL_ACCESS 0]) ∧
    ((displayName os fuel self w).out = .raise (NotFound self._name) ∧
      (displayName os fuel self w).world.log =
        w.log ++ [Call.OpenService self._scmHandle (c_str self._name) SERVICE_ALL_ACCESS 0]) ∧
    ((path os fuel self w).out = .raise (NotFound self._name) ∧
      (path os fuel self w).world.log =
        w.log ++ [Call.OpenService self._scmHandle (c_str self._name) SERVICE_ALL_ACCESS 0]) ∧
    ((isRegistered os self w).out = .ret false ∧
      (isRegistered os self w).world.log =
        w.log ++ [Call.OpenService self._scmHandle (c_str self._name) SERVICE_ALL_ACCESS 0]) := by
  have e := open_fails os self w hfail
  refine ⟨?_, ?_, ?_, ?_, ?_, ?_, ?_, ?_, ?_⟩
  · simp [unregisterService, e, Res.bind]
  · simp [isRunning, e, Res.bind]
  · simp [start, e, Res.bind]
  · simp [stop, e, Res.bind]
  · simp [setStartup, e, Res.bind]
  · simp [getStartup, config, e, Res.bind]
  · simp [displayName, config, e, Res.bind]
  · simp [path, config, e, Res.bind]
  · simp [isRegistered, tryOpen, Sys.OpenService, hfail]

/-! ## The conversions of `config()` -/

theorem int_to_DWORD_of_DWORD (n : Nat) : int_to_DWORD (DWORD_to_int n) = n % 4294967296 := by
  unfold int_to_DWORD DWORD_to_int
  simp only [Int.ofNat_eq_coe]
  split <;> omega

theorem int_to_SIZE_T_4096 (b : Bool) : int_to_SIZE_T b 4096 = 4096 := by
  cases b <;> rfl

theorem int_to_DWORD_4096 : int_to_DWORD 4096 = 4096 := rfl

/-! ## Reading the log of `config()` -/

theorem queryBuffers_append (a b : List Call) :
    queryBuffers (a ++ b) = queryBuffers a ++ queryBuffers b := by
  induction a with
  | nil => rfl
  | cons c t ih => cases c <;> simp [queryBuffers, ih]

theorem queryBuffers_retryCalls (b : Bool) (h p : Nat) (size : Int) (rs : List (Nat × Nat)) :
    queryBuffers (retryCalls b h p size rs) = (p :: rs.map Prod.snd).dropLast := by
  induction rs generalizing p size with
  | nil => rfl
  | cons r rest ih => simp [retryCalls, queryBuffers, ih, List.dropLast]

/-- C4. When the record `config()` returns has the start type boot-start, system-start or
auto-start, `getStartup()` returns `SVC_AUTO_START`; for demand-start it returns
`SVC_MANUAL_START`; for disabled it returns `SVC_DISABLED`. -/
theorem getStartup_known (os : OS σ) (fuel : Nat) (self : WinService) (w : World σ) (p : Nat)
    (cfg : QUERY_SERVICE_CONFIG) (hcfg : (config os fuel self w).out = .ret (p, cfg)) :
    ((cfg.dwStartType = SERVICE_BOOT_START ∨ cfg.dwStartType = SERVICE_SYSTEM_START ∨
        cfg.dwStartType = SERVICE_AUTO_START) →
      (getStartup os fuel self w).out = .ret .SVC_AUTO_START) ∧
    (cfg.dwStartType = SERVICE_DEMAND_START →
      (getStartup os fuel self w).out = .ret .SVC_MANUAL_START) ∧
    (cfg.dwStartType = SERVICE_DISABLED →
      (getStartup os fuel self w).out = .ret .SVC_DISABLED) := by
  refine ⟨?_, ?_, ?_⟩
  · intro h
    rcases h with h | h | h <;>
      simp [getStartup, Res.bind, hcfg, h, SERVICE_AUTO_START, SERVICE_BOOT_START,
        SERVICE_SYSTEM_START]
  · intro h
    simp [getStartup, Res.bind, hcfg, h, SERVICE_AUTO_START, SERVICE_BOOT_START,
      SERVICE_SYSTEM_START, SERVICE_DEMAND_START]
  · intro h
    simp [getStartup, Res.bind, hcfg, h, SERVICE_AUTO_START, SERVICE_BOOT_START,
      SERVICE_SYSTEM_START, SERVICE_DEMAND_START, SERVICE_DISABLED]

/-- Witness of C4: the simulated OS with "Acme" registered (demand-start). -/
theorem getStartup_known_witness :
    (config Sim.os 2 ⟨"Acme", 1, 0⟩ ⟨Sim.acme, []⟩).out =
        .ret (2, ⟨SERVICE_DEMAND_START, "/opt/acme/bin/acme", "Acme Daemon"⟩) ∧
      (getStartup Sim.os 2 ⟨"Acme", 1, 0⟩ ⟨Sim.acme, []⟩).out = .ret .SVC_MANUAL_START :=
  ⟨by decide,
    (getStartup_known Sim.os 2 ⟨"Acme", 1, 0⟩ ⟨Sim.acme, []⟩ 2
      ⟨SERVICE_DEMAND_START, "/opt/acme/bin/acme", "Acme Daemon"⟩ (by decide)).2.1 rfl⟩

/-- C9, as the code has it. When the record `config()` returns has a start type that is none
of boot-start, system-start, auto-start, demand-start and disabled, `getStartup()` throws
nothing: after the debug-only trap `poco_debugger()` it frees the record and returns
`SVC_MANUAL_START`. -/
theorem getStartup_unknown (os : OS σ) (fuel : Nat) (self : WinService) (w : World σ) (p : Nat)
    (cfg : QUERY_SERVICE_CONFIG) (hcfg : (config os fuel self w).out = .ret (p, cfg))
    (h1 : cfg.dwStartType ≠ SERVICE_BOOT_START) (h2 : cfg.dwStartType ≠ SERVICE_SYSTEM_START)
    (h3 : cfg.dwStartType ≠ SERVICE_AUTO_START) (h4 : cfg.dwStartType ≠ SERVICE_DEMAND_START)
    (h5 : cfg.dwStartType ≠ SERVICE_DISABLED) :
    (getStartup os fuel self w).out = .ret .SVC_MANUAL_START ∧
      (getStartup os fuel self w).world.log =
        (config os fuel self w).world.log ++ [Call.poco_debugger, Call.LocalFree p] := by
  simp [getStartup, Res.bind, hcfg, h1, h2, h3, h4, h5, Sys.LocalFree, Sys.poco_debugger]

/-- Witness of `getStartup_unknown`: the simulated OS with "Odd" registered (start type 7). -/
theorem getStartup_unknown_witness :
    (config Sim.os 2 ⟨"Odd", 1, 0⟩ ⟨Sim.odd, []⟩).out = .ret (2, ⟨7, "/opt/odd", "Odd"⟩) ∧
      (getStartup Sim.os 2 ⟨"Odd", 1, 0⟩ ⟨Sim.odd, []⟩).out = .ret .SVC_MANUAL_START :=
  ⟨by decide,
    (getStartup_unknown Sim.os 2 ⟨"Odd", 1, 0⟩ ⟨Sim.odd, []⟩ 2 ⟨7, "/opt/odd", "Odd"⟩
      (by decide) (by decide) (by decide) (by decide) (by decide) (by decide)).1⟩

/-- Counterexample to C9 as stated: the stored start type of "Odd" is 7, none of the five
documented values, and `getStartup()` returns `SVC_MANUAL_START`: it throws nothing. -/
theorem odd_start_type_returns_manual :
    (config Sim.os 2 ⟨"Odd", 1, 0⟩ ⟨Sim.odd, []⟩).out = .ret (2, ⟨7, "/opt/odd", "Odd"⟩) ∧
      7 ≠ SERVICE_BOOT_START ∧ 7 ≠ SERVICE_SYSTEM_START ∧ 7 ≠ SERVICE_AUTO_START ∧
      7 ≠ SERVICE_DEMAND_START ∧ 7 ≠ SERVICE_DISABLED ∧
      (getStartup Sim.os 2 ⟨"Odd", 1, 0⟩ ⟨Sim.odd, []⟩).out = .ret .SVC_MANUAL_START ∧
      ¬ ∃ e, (getStartup Sim.os 2 ⟨"Odd", 1, 0⟩ ⟨Sim.odd, []⟩).out = .raise e := by
  refine ⟨by decide, by decide, by decide, by decide, by decide, by decide, by decide, ?_⟩
  rintro ⟨e, he⟩
  have h : (getStartup Sim.os 2 ⟨"Odd", 1, 0⟩ ⟨Sim.odd, []⟩).out = .ret .SVC_MANUAL_START := by
    decide
  rw [h] at he
  exact absurd he (by simp)

/-! ## The simulated OS -/

namespace Sim

theorem find_name (s : SimState) (name : String) (v : Service) (h : find s name = some v) :
    v.name = name := by
  have := List.find?_some h
  simpa using this

theorem find_map (l : List Service) (name : String) (f : Service → Service) (v : Service)
    (hf : ∀ e, (f e).name = e.name)
    (h : l.find? (fun e => e.name == name) = some v) :
    (l.map (fun e => if e.name == name then f e else e)).find? (fun e => e.name == name) =
      some (f v) := by
  induction l with
  | nil => simp at h
  | cons e t ih =>
    by_cases he : e.name = name
    · have hb : (e.name == name) = true := by simp [he]
      rw [List.find?_cons_of_pos t hb] at h
      injection h with h
      subst h
      have hb' : ((f e).name == name) = true := by simp [hf, he]
      simp only [List.map_cons, hb, if_true]
      simp only [List.find?_cons, hb']
    · have hb : ¬ (e.name == name) = true := by simp [he]
      rw [List.find?_cons_of_neg t hb] at h
      have hb2 : (e.name == name) = false := by simpa using he
      simp only [List.map_cons, hb2, Bool.false_eq_true, if_false, List.find?_cons]
      exact ih h

theorem find_update (s : SimState) (name : String) (f : Service → Service) (v : Service)
    (hf : ∀ e, (f e).name = e.name) (h : find s name = some v) :
    find (update s name f) name = some (f v) :=
  find_map s.services name f v hf h

theorem configSize_mod (v : Service) : configSize v % 4294967296 = configSize v := by
  simp [configSize]

/-- On the simulated OS, `config()` returns the stored fields of a registered service, after at
most one retry. -/
theorem config_returns (fuel : Nat) (self : WinService) (w : World SimState) (v : Service)
    (hv : find w.os (c_str self._name) = some v) :
    ∃ p, (config os (fuel + 2) self w).out =
      .ret (p, ⟨v.startType, v.binaryPath, v.displayName⟩) := by
  have hv' : List.find? (fun e => e.name == c_str self._name) w.os.services = some v := hv
  by_cases hsize : 4096 < configSize v
  · refine ⟨w.os.next + 3, ?_⟩
    simp [config, open_, tryOpen, Res.bind, Sys.OpenService, Sys.LocalAlloc, Sys.LocalFree,
      os, OpenService, hv, fresh, LocalAlloc, configLoop, Sys.QueryServiceConfig,
      QueryServiceConfig, entry, List.lookup, find, hv', hsize, int_to_SIZE_T_4096,
      int_to_DWORD_4096, int_to_DWORD_of_DWORD, configSize_mod]
  · refine ⟨w.os.next + 2, ?_⟩
    simp [config, open_, tryOpen, Res.bind, Sys.OpenService, Sys.LocalAlloc, Sys.LocalFree,
      os, OpenService, hv, fresh, LocalAlloc, configLoop, Sys.QueryServiceConfig,
      QueryServiceConfig, entry, List.lookup, find, hv', hsize, int_to_SIZE_T_4096,
      int_to_DWORD_4096, int_to_DWORD_of_DWORD, configSize_mod]

/-- On the simulated OS, `setStartup()` on a registered service succeeds, sends the start type
of the switch, and the entry then has that start type (unless it is "no change"). -/
theorem setStartup_stores (startup : Startup) (self : WinService) (w : World SimState)
    (v : Service) (hv : find w.os (c_str self._name) = some v) :
    (setStartup os startup self w).out = .ret () ∧
      (setStartup os startup self w).self._name = self._name ∧
      (setStartup os startup self w).world.log =
        w.log ++ [Call.OpenService self._scmHandle (c_str self._name) SERVICE_ALL_ACCESS
            (w.os.next + 1),
          Call.ChangeServiceConfig (w.os.next + 1) SERVICE_NO_CHANGE (startTypeOf startup)
            SERVICE_NO_CHANGE true] ∧
      find (setStartup os startup self w).world.os (c_str self._name) =
        some { v with
          serviceType := changed v.serviceType SERVICE_NO_CHANGE
          startType := changed v.startType (startTypeOf startup)
          errorControl := changed v.errorControl SERVICE_NO_CHANGE } := by
  have hv' : List.find? (fun e => e.name == c_str self._name) w.os.services = some v := hv
  have hname := find_name w.os _ v hv
  have hpost : (setStartup os startup self w).world.os =
      update ⟨w.os.services, (w.os.next + 1, c_str self._name) :: w.os.handles, w.os.managers,
        w.os.next + 1⟩ (c_str self._name) (fun e =>
          { e with
            serviceType := changed e.serviceType SERVICE_NO_CHANGE
            startType := changed e.startType (startTypeOf startup)
            errorControl := changed e.errorControl SERVICE_NO_CHANGE }) := by
    simp [setStartup, open_, tryOpen, Res.bind, Sys.OpenService, Sys.ChangeServiceConfig, os,
      OpenService, ChangeServiceConfig, fresh, entry, List.lookup, find, hv', hname]
  refine ⟨?_, ?_, ?_, ?_⟩
  · simp [setStartup, open_, tryOpen, Res.bind, Sys.OpenService, Sys.ChangeServiceConfig, os,
      OpenService, ChangeServiceConfig, fresh, entry, List.lookup, find, hv']
  · simp [setStartup, open_, tryOpen, Res.bind, Sys.OpenService, Sys.ChangeServiceConfig, os,
      OpenService, ChangeServiceConfig, fresh, entry, List.lookup, find, hv']
  · simp [setStartup, open_, tryOpen, Res.bind, Sys.OpenService, Sys.ChangeServiceConfig, os,
      OpenService, ChangeServiceConfig, fresh, entry, List.lookup, find, hv']
  · rw [hpost]
    exact find_update _ _ _ v (fun _ => rfl) hv

end Sim

/-- What `getStartup()` returns, from the start type of the record `config()` returned. -/
theorem getStartup_out (os : OS σ) (fuel : Nat) (self : WinService) (w : World σ) (p : Nat)
    (cfg : QUERY_SERVICE_CONFIG) (hcfg : (config os fuel self w).out = .ret (p, cfg)) :
    (getStartup os fuel self w).out =
      .ret (if cfg.dwStartType = SERVICE_AUTO_START ∨ cfg.dwStartType = SERVICE_BOOT_START ∨
          cfg.dwStartType = SERVICE_SYSTEM_START then .SVC_AUTO_START
        else if cfg.dwStartType = SERVICE_DEMAND_START then .SVC_MANUAL_START
        else if cfg.dwStartType = SERVICE_DISABLED then .SVC_DISABLED
        else .SVC_MANUAL_START) := by
  simp only [getStartup, Res.bind, hcfg]
  split_ifs <;> rfl

/-- C5. Round trip of the startup policy. For `p` one of `SVC_AUTO_START`, `SVC_MANUAL_START`
and `SVC_DISABLED`, on the simulated OS (its `ChangeServiceConfig` stores the start type asked
for, its `QueryServiceConfig` gives the stored one back) with the service registered:
`setStartup(p)` succeeds, having sent the start type of its switch for `p`, and `getStartup()`
after it returns `p`. Equivalently, on every OS: when the record `config()` returns has the
start type `setStartup` sends for `p`, `getStartup()` returns `p`. -/
theorem startup_roundtrip (p : Startup)
    (hp : p = .SVC_AUTO_START ∨ p = .SVC_MANUAL_START ∨ p = .SVC_DISABLED)
    (fuel : Nat) (self : WinService) (w : World SimState) (v : Service)
    (hv : Sim.find w.os (c_str self._name) = some v) :
    (setStartup Sim.os p self w).out = .ret () ∧
      (setStartup Sim.os p self w).world.log =
        w.log ++ [Call.OpenService self._scmHandle (c_str self._name) SERVICE_ALL_ACCESS
            (w.os.next + 1),
          Call.ChangeServiceConfig (w.os.next + 1) SERVICE_NO_CHANGE (startTypeOf p)
            SERVICE_NO_CHANGE true] ∧
      (getStartup Sim.os (fuel + 2) (setStartup Sim.os p self w).self
        (setStartup Sim.os p self w).world).out = .ret p ∧
      (∀ (τ : Type) (os : OS τ) (fuel : Nat) (self : WinService) (w : World τ) (ptr : Nat)
        (cfg : QUERY_SERVICE_CONFIG), (config os fuel self w).out = .ret (ptr, cfg) →
        cfg.dwStartType = startTypeOf p → (getStartup os fuel self w).out = .ret p) := by
  have hread : ∀ (τ : Type) (os : OS τ) (fuel : Nat) (self : WinService) (w : World τ)
      (ptr : Nat) (cfg : QUERY_SERVICE_CONFIG), (config os fuel self w).out = .ret (ptr, cfg) →
      cfg.dwStartType = startTypeOf p → (getStartup os fuel self w).out = .ret p := by
    intro τ os fuel self w ptr cfg hcfg ht
    rw [getStartup_out os fuel self w ptr cfg hcfg, ht]
    rcases hp with hp | hp | hp <;> subst hp <;> rfl
  obtain ⟨hout, hname, hlog, hfind⟩ := Sim.setStartup_stores p self w v hv
  refine ⟨hout, hlog, ?_, hread⟩
  rw [← hname] at hfind
  obtain ⟨ptr, hcfg⟩ := Sim.config_returns fuel _ _ _ hfind
  refine hread _ _ _ _ _ ptr _ hcfg ?_
  rcases hp with hp | hp | hp <;> subst hp <;> rfl

/-- Witness of C5: "Acme" on the simulated OS, set to automatic start. -/
theorem startup_roundtrip_witness :
    Sim.find Sim.acme (c_str "Acme") = some
        ⟨"Acme", "Acme Daemon", SERVICE_WIN32_OWN_PROCESS, SERVICE_DEMAND_START,
          SERVICE_ERROR_NORMAL, "/opt/acme/bin/acme", SERVICE_STOPPED, 3⟩ ∧
      (getStartup Sim.os (0 + 2)
        (setStartup Sim.os .SVC_AUTO_START ⟨"Acme", 1, 0⟩ ⟨Sim.acme, []⟩).self
        (setStartup Sim.os .SVC_AUTO_START ⟨"Acme", 1, 0⟩ ⟨Sim.acme, []⟩).world).out =
          .ret .SVC_AUTO_START :=
  ⟨by decide,
    (startup_roundtrip .SVC_AUTO_START (Or.inl rfl) 0 ⟨"Acme", 1, 0⟩ ⟨Sim.acme, []⟩
      ⟨"Acme", "Acme Daemon", SERVICE_WIN32_OWN_PROCESS, SERVICE_DEMAND_START,
        SERVICE_ERROR_NORMAL, "/opt/acme/bin/acme", SERVICE_STOPPED, 3⟩ (by decide)).2.2.1⟩

/-- Witness of C6: the simulated OS with nothing registered. -/
theorem notFound_when_open_fails_witness :
    (Sim.os.OpenService 1 (c_str "Acme") SERVICE_ALL_ACCESS Sim.empty).1 = 0 ∧
      (unregisterService Sim.os ⟨"Acme", 1, 0⟩ ⟨Sim.empty, []⟩).out = .raise (NotFound "Acme") ∧
      (isRegistered Sim.os ⟨"Acme", 1, 0⟩ ⟨Sim.empty, []⟩).out = .ret false :=
  ⟨by decide,
    (notFound_when_open_fails Sim.os ⟨"Acme", 1, 0⟩ ⟨Sim.empty, []⟩ 2 .SVC_AUTO_START
      (by decide)).1.1,
    (notFound_when_open_fails Sim.os ⟨"Acme", 1, 0⟩ ⟨Sim.empty, []⟩ 2 .SVC_AUTO_START
      (by decide)).2.2.2.2.2.2.2.2.1⟩

/-! ## Texts -/

theorem takeWhile_idem {α : Type} (p : α → Bool) (l : List α) :
    (l.takeWhile p).takeWhile p = l.takeWhile p := by
  induction l with
  | nil => rfl
  | cons a t ih =>
    by_cases h : p a = true
    · simp [List.takeWhile_cons, h, ih]
    · simp [List.takeWhile_cons, h]

/-- Reading a C string twice is reading it once. -/
theorem c_str_idem (s : String) : c_str (c_str s) = c_str s := by
  simp [c_str, takeWhile_idem]

/-- A text without a NUL character is the C string it is passed as. -/
theorem c_str_of_no_nul (s : String) (h : ∀ c ∈ s.data, c ≠ Char.ofNat 0) : c_str s = s := by
  have : s.data.takeWhile (fun c => c != Char.ofNat 0) = s.data := by
    rw [List.takeWhile_eq_self_iff]
    intro c hc
    simpa using h c hc
  simp [c_str, this]

/-! ## The read accessors -/

theorem displayName_out (os : OS σ) (fuel : Nat) (self : WinService) (w : World σ) (p : Nat)
    (cfg : QUERY_SERVICE_CONFIG) (hcfg : (config os fuel self w).out = .ret (p, cfg)) :
    (displayName os fuel self w).out = .ret (c_str cfg.lpDisplayName) := by
  simp only [displayName, Res.bind, hcfg]

theorem path_out (os : OS σ) (fuel : Nat) (self : WinService) (w : World σ) (p : Nat)
    (cfg : QUERY_SERVICE_CONFIG) (hcfg : (config os fuel self w).out = .ret (p, cfg)) :
    (path os fuel self w).out = .ret (c_str cfg.lpBinaryPathName) := by
  simp only [path, Res.bind, hcfg]

/-- The request of `registerService`, on every OS: after `close()`, its one call is
`CreateService` for the name, the display name and the path as C strings, with full access, the
own-process type, demand-start and normal error severity; the result is the new `_svcHandle`. -/
theorem registerService_log (os : OS σ) (path displayName : String) (self : WinService)
    (w : World σ) :
    (registerService os path displayName self w).world.log =
      (close os self w).log ++ [Call.CreateService self._scmHandle (c_str self._name)
        (c_str displayName) SERVICE_ALL_ACCESS SERVICE_WIN32_OWN_PROCESS SERVICE_DEMAND_START
        SERVICE_ERROR_NORMAL (c_str path)
        (registerService os path displayName self w).self._svcHandle] := by
  unfold registerService
  simp only [Sys.CreateService]
  split <;> rfl

namespace Sim

/-- On the simulated OS, `registerService` of a name not yet registered succeeds and stores the
fields of its request. -/
theorem register_stores (path displayName : String) (self : WinService) (w : World SimState)
    (hnew : find w.os (c_str self._name) = none) :
    (registerService os path displayName self w).out = .ret () ∧
      (registerService os path displayName self w).self._name = self._name ∧
      find (registerService os path displayName self w).world.os (c_str self._name) =
        some ⟨c_str self._name, c_str displayName, SERVICE_WIN32_OWN_PROCESS,
          SERVICE_DEMAND_START, SERVICE_ERROR_NORMAL, c_str path, SERVICE_STOPPED, 3⟩ := by
  have hnew' : List.find? (fun e => e.name == c_str self._name) w.os.services = none := hnew
  by_cases hh : self._svcHandle = 0 <;>
    simp [registerService, close, Sys.CreateService, Sys.CloseServiceHandle, os, CreateService,
      CloseServiceHandle, fresh, find, hnew', hh]

end Sim

/-- C7, as the code has it. On the simulated OS (its `CreateService` stores the fields of the
request, its `QueryServiceConfig` gives them back), for a name not yet registered:
`registerService(path, displayName)` succeeds; its request, the one call after `close()`, is
`CreateService` with the own-process type and demand-start, and the OS stores these with the
texts; after it `displayName()` returns the display name up to its first NUL character,
`path()` returns the path up to its first NUL character and `getStartup()` returns
`SVC_MANUAL_START`. `registerService(path)` makes the same request with the service name as the
display name, and after it `displayName()` returns the service name up to its first NUL
character. A text without a NUL character is returned whole. -/
theorem register_readback (fuel : Nat) (path displayName : String) (self : WinService)
    (w : World SimState) (hnew : Sim.find w.os (c_str self._name) = none) :
    (registerService Sim.os path displayName self w).out = .ret () ∧
      (registerService Sim.os path displayName self w).world.log =
        (close Sim.os self w).log ++ [Call.CreateService self._scmHandle (c_str self._name)
          (c_str displayName) SERVICE_ALL_ACCESS SERVICE_WIN32_OWN_PROCESS SERVICE_DEMAND_START
          SERVICE_ERROR_NORMAL (c_str path)
          (registerService Sim.os path displayName self w).self._svcHandle] ∧
      Sim.find (registerService Sim.os path displayName self w).world.os (c_str self._name) =
        some ⟨c_str self._name, c_str displayName, SERVICE_WIN32_OWN_PROCESS,
          SERVICE_DEMAND_START, SERVICE_ERROR_NORMAL, c_str path, SERVICE_STOPPED, 3⟩ ∧
      (WinService.displayName Sim.os (fuel + 2)
        (registerService Sim.os path displayName self w).self
        (registerService Sim.os path displayName self w).world).out =
          .ret (c_str displayName) ∧
      (WinService.path Sim.os (fuel + 2)
        (registerService Sim.os path displayName self w).self
        (registerService Sim.os path displayName self w).world).out = .ret (c_str path) ∧
      (getStartup Sim.os (fuel + 2)
        (registerService Sim.os path displayName self w).self
        (registerService Sim.os path displayName self w).world).out = .ret .SVC_MANUAL_START ∧
      (registerService1 Sim.os path self w).out = .ret () ∧
      (registerService1 Sim.os path self w).world.log =
        (close Sim.os self w).log ++ [Call.CreateService self._scmHandle (c_str self._name)
          (c_str self._name) SERVICE_ALL_ACCESS SERVICE_WIN32_OWN_PROCESS SERVICE_DEMAND_START
          SERVICE_ERROR_NORMAL (c_str path)
          (registerService1 Sim.os path self w).self._svcHandle] ∧
      (WinService.displayName Sim.os (fuel + 2)
        (registerService1 Sim.os path self w).self
        (registerService1 Sim.os path self w).world).out = .ret (c_str self._name) ∧
      (∀ s : String, (∀ c ∈ s.data, c ≠ Char.ofNat 0) → c_str s = s) := by
  obtain ⟨hout, hname, hfind⟩ := Sim.register_stores path displayName self w hnew
  obtain ⟨hout1, hname1, hfind1⟩ := Sim.register_stores path self._name self w hnew
  obtain ⟨p, hcfg⟩ := Sim.config_returns fuel
    (registerService Sim.os path displayName self w).self
    (registerService Sim.os path displayName self w).world _ (by rw [hname]; exact hfind)
  obtain ⟨p1, hcfg1⟩ := Sim.config_returns fuel
    (registerService Sim.os path self._name self w).self
    (registerService Sim.os path self._name self w).world _ (by rw [hname1]; exact hfind1)
  refine ⟨hout, registerService_log Sim.os path displayName self w, hfind, ?_, ?_, ?_, hout1,
    registerService_log Sim.os path self._name self w, ?_, c_str_of_no_nul⟩
  · rw [displayName_out _ _ _ _ p _ hcfg]
    simp [c_str_idem]
  · rw [path_out _ _ _ _ p _ hcfg]
    simp [c_str_idem]
  · rw [getStartup_out _ _ _ _ p _ hcfg]
    rfl
  · rw [registerService1, displayName_out _ _ _ _ p1 _ hcfg1]
    simp [c_str_idem]

/-- Witness of `register_readback`: the scenario of the spec, "Acme" registered with the path
"/opt/acme/bin/acme" and the display name "Acme Daemon" on the simulated OS with nothing
registered. -/
theorem register_readback_witness :
    Sim.find Sim.empty (c_str "Acme") = none ∧
      (WinService.displayName Sim.os (0 + 2)
        (registerService Sim.os "/opt/acme/bin/acme" "Acme Daemon" ⟨"Acme", 1, 0⟩
          ⟨Sim.empty, []⟩).self
        (registerService Sim.os "/opt/acme/bin/acme" "Acme Daemon" ⟨"Acme", 1, 0⟩
          ⟨Sim.empty, []⟩).world).out = .ret (c_str "Acme Daemon") ∧
      c_str "Acme Daemon" = "Acme Daemon" :=
  ⟨by decide,
    (register_readback 0 "/opt/acme/bin/acme" "Acme Daemon" ⟨"Acme", 1, 0⟩ ⟨Sim.empty, []⟩
      (by decide)).2.2.2.1,
    by decide⟩

/-- Counterexample to C7 as stated: a display name with a NUL character in it. Registering
"Acme" with the display name "Acme", NUL, "Daemon" succeeds, the OS is given and stores the C
string "Acme", and `displayName()` returns "Acme", not the display name. -/
theorem displayName_cut_at_nul :
    (registerService Sim.os "/opt/acme/bin/acme" "Acme\x00Daemon" ⟨"Acme", 1, 0⟩
        ⟨Sim.empty, []⟩).out = .ret () ∧
      (WinService.displayName Sim.os 2
        (registerService Sim.os "/opt/acme/bin/acme" "Acme\x00Daemon" ⟨"Acme", 1, 0⟩
          ⟨Sim.empty, []⟩).self
        (registerService Sim.os "/opt/acme/bin/acme" "Acme\x00Daemon" ⟨"Acme", 1, 0⟩
          ⟨Sim.empty, []⟩).world).out = .ret "Acme" ∧
      "Acme" ≠ "Acme\x00Daemon" := by
  refine ⟨by decide, by decide, by decide⟩

/-! ## Two defects -/

/-- C8 fails on the code. Construct the object for "Acme" (registered on the simulated OS), call
`isRegistered()` twice, destroy the object: two service handles were acquired (2 and 3), only
the second was released (and the manager connection, 1), and handle 2 is still open after the
destruction. `tryOpen()` overwrites `_svcHandle` without closing the handle it held. -/
theorem handle_left_open :
    askedTwice.log =
        [Call.OpenSCManager SC_MANAGER_ALL_ACCESS 1,
          Call.OpenService 1 "Acme" SERVICE_ALL_ACCESS 2,
          Call.OpenService 1 "Acme" SERVICE_ALL_ACCESS 3,
          Call.CloseServiceHandle 3, Call.CloseServiceHandle 1] ∧
      acquired askedTwice.log = [2, 3] ∧
      released askedTwice.log = [3, 1] ∧
      askedTwice.os.handles = [(2, "Acme")] := by
  refine ⟨by decide, by decide, by decide, by decide⟩

/-- C10 fails on the code. On the simulated OS short of memory, with "Big" registered (its
record needs 5000 bytes): the first allocation succeeds, the query reports "buffer too small",
the reallocation fails, and `config()` passes the null pointer to the next query; it throws
`QueryFailed`, not `AllocationFailed`. The result of the second `LocalAlloc` is not checked. -/
theorem null_buffer_queried :
    (config Sim.lowMemory 2 ⟨"Big", 1, 0⟩ ⟨Sim.big, []⟩).world.log =
        [Call.OpenService 1 "Big" SERVICE_ALL_ACCESS 1,
          Call.LocalAlloc LPTR 4096 2,
          Call.QueryServiceConfig 1 2 4096 (.failure ERROR_INSUFFICIENT_BUFFER 5000),
          Call.LocalFree 2,
          Call.LocalAlloc LPTR 5000 0,
          Call.QueryServiceConfig 1 0 5000 (.failure ERROR_INVALID_ADDRESS 0),
          Call.LocalFree 0] ∧
      queryBuffers (config Sim.lowMemory 2 ⟨"Big", 1, 0⟩ ⟨Sim.big, []⟩).world.log = [2, 0] ∧
      (config Sim.lowMemory 2 ⟨"Big", 1, 0⟩ ⟨Sim.big, []⟩).out =
        .raise (ConfigQueryFailed "Big") ∧
      (config Sim.lowMemory 2 ⟨"Big", 1, 0⟩ ⟨Sim.big, []⟩).out ≠ .raise AllocationFailed := by
  refine ⟨by decide, by decide, by decide, by decide⟩

end WinSvc
